import Mathlib

/-!
# Degate logic model: the `Gate` entity

A shallow embedding of `src/Core/LogicModel/Gate/Gate.cc`.

Conventions of the embedding

* A non-null `std::shared_ptr<T>` is a heap address (`Nat`); a possibly empty
  one is an `Option Nat`.  The heap is a total map per object kind, because a
  non-null shared pointer always designates a live object.
* A finite `float` value is the rational number it denotes (`ℚ`); every
  `float` addition, subtraction and conversion from `unsigned int` rounds its
  exact result to the nearest binary32 value, ties to even (`float_round`).
  Infinities and NaN are outside the model.
* `static_cast<unsigned int>(f)` truncates toward zero where the language
  defines the conversion (`-1 < f < 2^32`); elsewhere the result is not fixed
  by the source and is taken from the environment (`Heap.undefined_cast`).
* `object_id_t`, `color_t` and `unsigned int` are natural numbers.
* A member function that can throw returns `Except Exception _`; a mutating
  member function returns the new heap and the new value of `*this`.
* `assert` is governed by the build flag `ndebug` (the C `NDEBUG` macro):
  with `ndebug = false` a violated assertion aborts the call
  (`Exception.AssertionFailure`), with `ndebug = true` it is compiled out.
-/

namespace degate

/-- The type `object_id_t` of object identifiers, an unsigned integer. -/
abbrev object_id_t := Nat

/-- The type `color_t` of colors, an unsigned integer; 0 is the unset color. -/
abbrev color_t := Nat

/-- Orientation of a placed gate, the enumeration `Gate::ORIENTATION`. -/
inductive ORIENTATION where
  | ORIENTATION_UNDEFINED
  | ORIENTATION_NORMAL
  | ORIENTATION_FLIPPED_UP_DOWN
  | ORIENTATION_FLIPPED_LEFT_RIGHT
  | ORIENTATION_FLIPPED_BOTH
  deriving DecidableEq, Repr

/-- Modelled from the spec: the exception classes are declared outside `src/`.
The constructors carry the class names thrown in `Gate.cc` (spec §7 lists
invalid identity, unmet precondition, failed lookup and undefined derived state
as separate kinds) together with the message text of the throw site.  The last
two constructors stand for an aborted call: a violated `assert` and the
dereference of an empty shared pointer. -/
inductive Exception where
  | InvalidObjectIDException (what : String)
  | DegateLogicException (what : String)
  | DegateRuntimeException (what : String)
  | CollectionLookupException
  | AssertionFailure
  | NullDereference
  deriving DecidableEq, Repr

/-- The spec's `LogicError`: the class `DegateLogicException`. -/
def Exception.is_logic_error : Exception → Bool
  | .DegateLogicException _ => true
  | _ => false

/-- The spec's `LookupError`: the class `CollectionLookupException`. -/
def Exception.is_lookup_error : Exception → Bool
  | .CollectionLookupException => true
  | _ => false

/-- The spec's `RuntimeError`: the class `DegateRuntimeException`. -/
def Exception.is_runtime_error : Exception → Bool
  | .DegateRuntimeException _ => true
  | _ => false

/-- Modelled from the spec: `GateTemplatePort` is declared outside `src/`.
Spec §3: object-id and template-local x/y coordinates. -/
structure GateTemplatePort where
  object_id : object_id_t
  x : ℚ
  y : ℚ
  deriving DecidableEq, Repr

/-- Modelled from the spec: `GatePort` is declared outside `src/`.  Spec §3:
object-id, absolute x/y position and a reference to a template port (empty
while the port is not bound to one). -/
structure GatePort where
  object_id : object_id_t
  x : ℚ
  y : ℚ
  gate_template_port : Option Nat
  deriving DecidableEq, Repr

/-- Modelled from the spec: `GateTemplate` is declared outside `src/`.  Spec §3:
object-id, name, width, height, fill and frame color and a reference count.
The count is an integer so that a decrement below zero is observable. -/
structure GateTemplate where
  object_id : object_id_t
  name : String
  width : Nat
  height : Nat
  fill_color : color_t
  frame_color : color_t
  reference_counter : Int
  deriving DecidableEq, Repr

/-- Modelled from the spec: `BoundingBox` is declared outside `src/`; spec §2:
axis-aligned extents with min/max coordinates, a pure value. -/
structure BoundingBox where
  min_x : ℚ
  max_x : ℚ
  min_y : ℚ
  max_y : ℚ
  deriving DecidableEq, Repr

/-- State of a `Gate` object: the `Rectangle` base (four extents), the
inherited object-id, name and colors, and the four data members
`orientation`, `template_type_id`, `gate_template`, `gate_ports`.
The port collection is listed in iteration order. -/
structure Gate where
  min_x : ℚ
  max_x : ℚ
  min_y : ℚ
  max_y : ℚ
  object_id : object_id_t
  name : String
  fill_color : color_t
  frame_color : color_t
  orientation : ORIENTATION
  template_type_id : object_id_t
  gate_template : Option Nat
  gate_ports : List Nat
  deriving DecidableEq, Repr

/-- The environment of a call: the objects the gate points to, by address,
and the number the platform yields for a conversion from `float` to `unsigned
int` whose result the language leaves undefined. -/
structure Heap where
  templates : Nat → GateTemplate
  template_ports : Nat → GateTemplatePort
  ports : Nat → GatePort
  undefined_cast : ℚ → Nat

/-! ## `float` arithmetic -/

/-- The integer nearest to a rational, a tie going to the even one. -/
def round_half_even (q : ℚ) : ℤ :=
  if q - Rat.floor q < 1 / 2 then Rat.floor q
  else if 1 / 2 < q - Rat.floor q then Rat.floor q + 1
  else if Rat.floor q % 2 = 0 then Rat.floor q
  else Rat.floor q + 1

/-- The binary exponent of a non-zero value in the binary32 format: the `e`
with `2^e ≤ |q| < 2^(e+1)`, and -126 for the subnormal range. -/
def float_exponent (q : ℚ) : ℤ := max (Int.log 2 |q|) (-126)

/-- The binary32 value nearest to a rational, ties to even: the significand
has 24 bits, so the spacing at exponent `e` is `2^(e-23)`. -/
def float_round (q : ℚ) : ℚ :=
  if q = 0 then 0
  else round_half_even (q / 2 ^ (float_exponent q - 23)) * 2 ^ (float_exponent q - 23)

/-- The `float` sum `a + b`. -/
def float_add (a b : ℚ) : ℚ := float_round (a + b)

/-- The `float` difference `a - b`. -/
def float_sub (a b : ℚ) : ℚ := float_round (a - b)

/-- The conversion of an `unsigned int` to `float`. -/
def float_of_unsigned (n : Nat) : ℚ := float_round n

/-! ## Collaborators that are not part of `Gate.cc` -/

/-- Modelled from the spec: `has_valid_object_id` of a template port (base
class outside `src/`); the id 0 is the value of "no object" (spec §3, type-id
0 when unlinked). -/
def GateTemplatePort.has_valid_object_id (p : GateTemplatePort) : Bool :=
  p.object_id != 0

/-- Modelled from the spec: `has_valid_object_id` of a gate port (base class
outside `src/`); the id 0 is the value of "no object". -/
def GatePort.has_valid_object_id (p : GatePort) : Bool :=
  p.object_id != 0

/-- Modelled from the spec: `GatePort::has_template_port` (outside `src/`),
whether the port references a template port. -/
def GatePort.has_template_port (p : GatePort) : Bool :=
  p.gate_template_port.isSome

/-- Modelled from the spec: `GatePort::set_x` (outside `src/`), spec §3
"absolute x/y position ... computed by the gate". -/
def GatePort.set_x (p : GatePort) (x : ℚ) : GatePort :=
  { p with x := x }

/-- Modelled from the spec: `GatePort::set_y` (outside `src/`). -/
def GatePort.set_y (p : GatePort) (y : ℚ) : GatePort :=
  { p with y := y }

/-- Modelled from the spec: `GateTemplate::increment_reference_counter`
(outside `src/`), spec §8 "increments that template's reference count by
exactly 1". -/
def GateTemplate.increment_reference_counter (t : GateTemplate) : GateTemplate :=
  { t with reference_counter := t.reference_counter + 1 }

/-- Modelled from the spec: `GateTemplate::decrement_reference_counter`
(outside `src/`), spec §8 "decrements it by exactly 1". -/
def GateTemplate.decrement_reference_counter (t : GateTemplate) : GateTemplate :=
  { t with reference_counter := t.reference_counter - 1 }

/-- Store a template object at an address. -/
def Heap.set_template (h : Heap) (a : Nat) (t : GateTemplate) : Heap :=
  { h with templates := Function.update h.templates a t }

/-- Store a gate port object at an address. -/
def Heap.set_port (h : Heap) (a : Nat) (p : GatePort) : Heap :=
  { h with ports := Function.update h.ports a p }

/-- Modelled from the spec: `Rectangle::get_width` (outside `src/`), the
extent of the bounding box along x, the `float` difference `max_x - min_x`. -/
def Gate.get_width (g : Gate) : ℚ := float_sub g.max_x g.min_x

/-- Modelled from the spec: `Rectangle::get_height` (outside `src/`), the
extent of the bounding box along y, the `float` difference `max_y - min_y`. -/
def Gate.get_height (g : Gate) : ℚ := float_sub g.max_y g.min_y

/-- Modelled from the spec: `Rectangle::set_max_x` (outside `src/`), the setter
of the maximum x extent of the bounding box (spec §3); it stores the value it
is given. -/
def Gate.set_max_x (g : Gate) (v : ℚ) : Gate := { g with max_x := v }

/-- Modelled from the spec: `Rectangle::set_max_y` (outside `src/`), the setter
of the maximum y extent of the bounding box; it stores the value it is given. -/
def Gate.set_max_y (g : Gate) (v : ℚ) : Gate := { g with max_y := v }

/-- Modelled from the spec: `Rectangle::get_bounding_box` (outside `src/`). -/
def Gate.get_bounding_box (g : Gate) : BoundingBox :=
  { min_x := g.min_x, max_x := g.max_x, min_y := g.min_y, max_y := g.max_y }

/-- Modelled from the spec: `set_fill_color` of the colored base class. -/
def Gate.set_fill_color (g : Gate) (c : color_t) : Gate := { g with fill_color := c }

/-- Modelled from the spec: `set_frame_color` of the colored base class. -/
def Gate.set_frame_color (g : Gate) (c : color_t) : Gate := { g with frame_color := c }

/-- Modelled from the spec: `has_name` of the base class, a non-empty name. -/
def Gate.has_name (g : Gate) : Bool := g.name != ""

/-- The conversion `static_cast<unsigned int>(f)`: truncation toward zero when
the truncated value fits an `unsigned int`, that is for `-1 < f < 2^32`;
otherwise the language leaves the result undefined and the value is the one
the environment yields, `undefined f`. -/
def static_cast_unsigned (undefined : ℚ → Nat) (f : ℚ) : Nat :=
  if -1 < f ∧ f < 4294967296 then (Rat.floor f).toNat else undefined f

/-! ### The port collection

Modelled from the spec: the collection type of `gate_ports` is declared in
`Gate.h`, outside `src/`.  Spec §3 and §4.1: a set keyed by object-id, unique
by object-id, an insert of a duplicate object-id leaves the set as it is.  The
list is kept in ascending key order, which is the iteration order. -/

/-- Modelled from the spec: `gate_ports.insert(p)` on the set keyed by
object-id; a port whose key is already present is not inserted. -/
def port_set_insert (ports : Nat → GatePort) (p : Nat) : List Nat → List Nat
  | [] => [p]
  | q :: qs =>
    if (ports p).object_id < (ports q).object_id then p :: q :: qs
    else if (ports q).object_id < (ports p).object_id then q :: port_set_insert ports p qs
    else q :: qs

/-- Modelled from the spec: `gate_ports.find(p) != gate_ports.end()` on the set
keyed by object-id: some element has the key of `p`. -/
def port_set_contains (ports : Nat → GatePort) (p : Nat) (l : List Nat) : Bool :=
  l.any (fun q => (ports q).object_id == (ports p).object_id)

/-- Modelled from the spec: `gate_ports.erase(gate_ports.find(p))`: the first
element with the key of `p` is removed. -/
def port_set_erase (ports : Nat → GatePort) (p : Nat) : List Nat → List Nat
  | [] => []
  | q :: qs =>
    if (ports q).object_id = (ports p).object_id then qs
    else q :: port_set_erase ports p qs

/-! ## The member functions of `Gate.cc` -/

/-- The constructor `Gate::Gate(float min_x, float max_x, float min_y, float max_y,
ORIENTATION orientation)`; the inherited members take their default values. -/
def Gate.construct (min_x max_x min_y max_y : ℚ) (orientation : ORIENTATION) : Gate :=
  { min_x := min_x, max_x := max_x, min_y := min_y, max_y := max_y,
    object_id := 0, name := "", fill_color := 0, frame_color := 0,
    orientation := orientation, template_type_id := 0,
    gate_template := none, gate_ports := [] }

/-- The constructor `Gate::Gate(BoundingBox const&, ORIENTATION orientation)`. -/
def Gate.construct_from_bounding_box (bounding_box : BoundingBox) (orientation : ORIENTATION) : Gate :=
  { min_x := bounding_box.min_x, max_x := bounding_box.max_x,
    min_y := bounding_box.min_y, max_y := bounding_box.max_y,
    object_id := 0, name := "", fill_color := 0, frame_color := 0,
    orientation := orientation, template_type_id := 0,
    gate_template := none, gate_ports := [] }

/-- The function `Gate::clone_shallow`: a new gate with this gate's bounding
box and orientation, then `template_type_id` copied. -/
def Gate.clone_shallow (this : Gate) : Gate :=
  { Gate.construct_from_bounding_box this.get_bounding_box this.orientation with
    template_type_id := this.template_type_id }

/-- The function `Gate::has_orientation`. -/
def Gate.has_orientation (this : Gate) : Bool :=
  this.orientation != ORIENTATION.ORIENTATION_UNDEFINED

/-- The function `Gate::set_orientation`. -/
def Gate.set_orientation (this : Gate) (orientation : ORIENTATION) : Gate :=
  { this with orientation := orientation }

/-- The function `Gate::get_orientation`. -/
def Gate.get_orientation (this : Gate) : ORIENTATION := this.orientation

/-- The function `Gate::has_template`. -/
def Gate.has_template (this : Gate) : Bool := this.gate_template.isSome

/-- The function `Gate::get_gate_template`. -/
def Gate.get_gate_template (this : Gate) : Option Nat := this.gate_template

/-- The function `Gate::set_template_type_id`. -/
def Gate.set_template_type_id (this : Gate) (template_type_id : object_id_t) : Gate :=
  { this with template_type_id := template_type_id }

/-- The function `Gate::get_template_type_id`. -/
def Gate.get_template_type_id (this : Gate) : object_id_t := this.template_type_id

/-- The function `Gate::get_relative_x_position_within_gate`.  The result is a
`float`, so `get_width() - rel_x` is a `float` difference.  In the
`ORIENTATION_UNDEFINED` branch the assertion comes first, then the throw. -/
def Gate.get_relative_x_position_within_gate (ndebug : Bool) (this : Gate) (rel_x : ℚ) :
    Except Exception ℚ :=
  match this.orientation with
  | .ORIENTATION_NORMAL => .ok rel_x
  | .ORIENTATION_FLIPPED_UP_DOWN => .ok rel_x
  | .ORIENTATION_FLIPPED_LEFT_RIGHT => .ok (float_sub this.get_width rel_x)
  | .ORIENTATION_FLIPPED_BOTH => .ok (float_sub this.get_width rel_x)
  | .ORIENTATION_UNDEFINED =>
    if ndebug then
      .error (.DegateRuntimeException "Can't calculate a position for an undefined orientation")
    else .error .AssertionFailure

/-- The function `Gate::get_relative_y_position_within_gate`. -/
def Gate.get_relative_y_position_within_gate (ndebug : Bool) (this : Gate) (rel_y : ℚ) :
    Except Exception ℚ :=
  match this.orientation with
  | .ORIENTATION_NORMAL => .ok rel_y
  | .ORIENTATION_FLIPPED_LEFT_RIGHT => .ok rel_y
  | .ORIENTATION_FLIPPED_UP_DOWN => .ok (float_sub this.get_height rel_y)
  | .ORIENTATION_FLIPPED_BOTH => .ok (float_sub this.get_height rel_y)
  | .ORIENTATION_UNDEFINED =>
    if ndebug then
      .error (.DegateRuntimeException "Can't calculate a position for an undefined orientation")
    else .error .AssertionFailure

/-- The function `Gate::add_port`.  The argument is a non-null pointer to a
gate port.  The three checks come in source order; `set_x` is applied before
the y offset is computed; the insert comes last.  The two positions are the
`float` sums `get_min_x() + ...` and `get_min_y() + ...`. -/
def Gate.add_port (ndebug : Bool) (h : Heap) (this : Gate) (gate_port : Nat) :
    Except Exception (Heap × Gate) :=
  if !(h.ports gate_port).has_valid_object_id then
    .error (.InvalidObjectIDException "Error in Gate::add_port(). The port has no valid object ID.")
  else if !(h.ports gate_port).has_template_port then
    .error (.DegateLogicException "Error in Gate::add_port(). The gate port has no template port")
  else if !this.has_orientation then
    .error (.DegateLogicException "Error in Gate::add_port(). The gate has no defined orientation")
  else
    match (h.ports gate_port).gate_template_port with
    | none => .error .NullDereference
    | some tp =>
      match this.get_relative_x_position_within_gate ndebug (h.template_ports tp).x with
      | .error e => .error e
      | .ok dx =>
        let h1 := h.set_port gate_port ((h.ports gate_port).set_x (float_add this.min_x dx))
        match (h1.ports gate_port).gate_template_port with
        | none => .error .NullDereference
        | some tp1 =>
          match this.get_relative_y_position_within_gate ndebug (h1.template_ports tp1).y with
          | .error e => .error e
          | .ok dy =>
            let h2 := h1.set_port gate_port ((h1.ports gate_port).set_y (float_add this.min_y dy))
            .ok (h2, { this with gate_ports := port_set_insert h2.ports gate_port this.gate_ports })

/-- The function `Gate::remove_port`. -/
def Gate.remove_port (h : Heap) (this : Gate) (gate_port : Nat) : Except Exception Gate :=
  if port_set_contains h.ports gate_port this.gate_ports then
    .ok { this with gate_ports := port_set_erase h.ports gate_port this.gate_ports }
  else .error .CollectionLookupException

/-- The loop of `Gate::get_port_by_template_port`: the first port, in iteration
order, whose template port pointer equals the argument. -/
def get_port_by_template_port_loop (h : Heap) (template_port : Option Nat) :
    List Nat → Except Exception Nat
  | [] => .error .CollectionLookupException
  | gate_port :: rest =>
    if (h.ports gate_port).gate_template_port = template_port then .ok gate_port
    else get_port_by_template_port_loop h template_port rest

/-- The function `Gate::get_port_by_template_port` (not `const` in the source):
the result is the port found together with the state of the gate after the
call.  The argument is compared as a pointer only, so it may be empty. -/
def Gate.get_port_by_template_port (h : Heap) (this : Gate) (template_port : Option Nat) :
    Except Exception (Nat × Gate) :=
  match get_port_by_template_port_loop h template_port this.gate_ports with
  | .ok gate_port => .ok (gate_port, this)
  | .error e => .error e

/-- The loop of `Gate::has_template_port`: per port the two assertions, then
the comparison of object-ids.  The argument is a non-null pointer. -/
def has_template_port_loop (ndebug : Bool) (h : Heap) (template_port : Nat) :
    List Nat → Except Exception Bool
  | [] => .ok false
  | gate_port :: rest =>
    match (h.ports gate_port).gate_template_port with
    | none => .error .NullDereference
    | some tp =>
      if !ndebug && !(h.template_ports tp).has_valid_object_id then .error .AssertionFailure
      else if !ndebug && !(h.template_ports template_port).has_valid_object_id then
        .error .AssertionFailure
      else if (h.template_ports tp).object_id = (h.template_ports template_port).object_id then
        .ok true
      else has_template_port_loop ndebug h template_port rest

/-- The function `Gate::has_template_port`. -/
def Gate.has_template_port (ndebug : Bool) (h : Heap) (this : Gate) (template_port : Nat) :
    Except Exception Bool :=
  has_template_port_loop ndebug h template_port this.gate_ports

/-- The function `Gate::set_gate_template`.  The argument is a non-null pointer
to a template.  The decrement of the old template comes first and is not
guarded by the comparison of the two pointers.  In `get_min_x() +
gate_template->get_width()` the `unsigned int` is converted to `float` and the
sum is a `float` sum. -/
def Gate.set_gate_template (h : Heap) (this : Gate) (gate_template : Nat) : Heap × Gate :=
  let h1 : Heap :=
    match this.gate_template with
    | some old => h.set_template old (h.templates old).decrement_reference_counter
    | none => h
  if this.gate_template ≠ some gate_template then
    let g1 : Gate := { this with gate_template := some gate_template }
    let g2 := g1.set_template_type_id (h1.templates gate_template).object_id
    let g3 := g2.set_fill_color (h1.templates gate_template).fill_color
    let g4 := g3.set_frame_color (h1.templates gate_template).frame_color
    let h2 := h1.set_template gate_template (h1.templates gate_template).increment_reference_counter
    if static_cast_unsigned h2.undefined_cast g4.get_width
          ≠ (h2.templates gate_template).width ∨
        static_cast_unsigned h2.undefined_cast g4.get_height
          ≠ (h2.templates gate_template).height then
      let g5 := g4.set_max_x
        (float_add g4.min_x (float_of_unsigned (h2.templates gate_template).width))
      let g6 := g5.set_max_y
        (float_add g5.min_y (float_of_unsigned (h2.templates gate_template).height))
      (h2, g6)
    else (h2, g4)
  else (h1, this)

/-- The function `Gate::remove_template`. -/
def Gate.remove_template (h : Heap) (this : Gate) : Heap × Gate :=
  let g1 : Gate := { this with gate_ports := [] }
  let g2 : Gate := { g1 with orientation := ORIENTATION.ORIENTATION_UNDEFINED }
  let g3 : Gate := { g2 with template_type_id := 0 }
  let g4 := g3.set_fill_color 0
  let g5 := g4.set_frame_color 0
  match g5.gate_template with
  | some t =>
    (h.set_template t (h.templates t).decrement_reference_counter,
      { g5 with gate_template := none })
  | none => (h, g5)

/-! ## Several gates over one heap, and sequences of calls -/

/-- A set of gates, addressed by position, that share the objects of one heap. -/
structure World where
  heap : Heap
  gates : List Gate

/-- A call of one of the two linking operations on the gate at a position. -/
inductive Call where
  | set_gate_template (gate : Nat) (gate_template : Nat)
  | remove_template (gate : Nat)
  deriving DecidableEq, Repr

/-- Effect of one call on the world; a position outside the set names no gate. -/
def World.call (w : World) : Call → World
  | .set_gate_template i t =>
    match w.gates[i]? with
    | some g => { heap := (g.set_gate_template w.heap t).1,
                  gates := w.gates.set i (g.set_gate_template w.heap t).2 }
    | none => w
  | .remove_template i =>
    match w.gates[i]? with
    | some g => { heap := (g.remove_template w.heap).1,
                  gates := w.gates.set i (g.remove_template w.heap).2 }
    | none => w

/-- Effect of a finite sequence of calls, first call first. -/
def World.run (w : World) (calls : List Call) : World :=
  calls.foldl World.call w

/-- Number of gates of the world whose template link is the template `t`. -/
def World.linked_gates (w : World) (t : Nat) : Nat :=
  w.gates.countP (fun g => g.gate_template == some t)

/-- Reference count stored in the template `t`. -/
def World.reference_counter (w : World) (t : Nat) : Int :=
  (w.heap.templates t).reference_counter

/-- A call of one of the public operations on one gate.  `clone_shallow`
continues with the clone. -/
inductive GateCall where
  | set_gate_template (gate_template : Nat)
  | remove_template
  | set_template_type_id (template_type_id : object_id_t)
  | add_port (gate_port : Nat)
  | remove_port (gate_port : Nat)
  | set_orientation (orientation : ORIENTATION)
  | clone_shallow
  deriving DecidableEq, Repr

/-- Effect of one call on the heap and the gate; a call that throws leaves
both as they were. -/
def GateCall.apply (ndebug : Bool) (s : Heap × Gate) : GateCall → Heap × Gate
  | .set_gate_template t => s.2.set_gate_template s.1 t
  | .remove_template => s.2.remove_template s.1
  | .set_template_type_id id => (s.1, s.2.set_template_type_id id)
  | .add_port p =>
    match s.2.add_port ndebug s.1 p with
    | .ok r => r
    | .error _ => s
  | .remove_port p =>
    match s.2.remove_port s.1 p with
    | .ok g => (s.1, g)
    | .error _ => s
  | .set_orientation o => (s.1, s.2.set_orientation o)
  | .clone_shallow => (s.1, s.2.clone_shallow)

/-- The x offset of the placement table of spec §4.1, in the spec's words:
`rel_x` for normal and flipped-vertically, `width - rel_x` for
flipped-horizontally and flipped-both, the difference being a `float`
difference.  The table gives no offset for the undefined orientation; 0 fills
the place. -/
def spec_x_offset (o : ORIENTATION) (width rel_x : ℚ) : ℚ :=
  match o with
  | .ORIENTATION_NORMAL => rel_x
  | .ORIENTATION_FLIPPED_UP_DOWN => rel_x
  | .ORIENTATION_FLIPPED_LEFT_RIGHT => float_sub width rel_x
  | .ORIENTATION_FLIPPED_BOTH => float_sub width rel_x
  | .ORIENTATION_UNDEFINED => 0

/-- The y offset of the placement table of spec §4.1, in the spec's words:
`rel_y` for normal and flipped-horizontally, `height - rel_y` for
flipped-vertically and flipped-both, the difference being a `float`
difference.  The table gives no offset for the undefined orientation; 0 fills
the place. -/
def spec_y_offset (o : ORIENTATION) (height rel_y : ℚ) : ℚ :=
  match o with
  | .ORIENTATION_NORMAL => rel_y
  | .ORIENTATION_FLIPPED_LEFT_RIGHT => rel_y
  | .ORIENTATION_FLIPPED_UP_DOWN => float_sub height rel_y
  | .ORIENTATION_FLIPPED_BOTH => float_sub height rel_y
  | .ORIENTATION_UNDEFINED => 0

/-! ## Example objects and closed forms of results -/

/-- A heap whose objects all have the given shape; an undefined conversion
yields 0 in it. -/
def Heap.uniform (t : GateTemplate) (tp : GateTemplatePort) (p : GatePort) : Heap :=
  { templates := fun _ => t, template_ports := fun _ => tp, ports := fun _ => p,
    undefined_cast := fun _ => 0 }

/-- Heap of the placement example of spec §8: every template port sits at
the template-local position (2,3), every gate port has the object-id 7 and
references the template port at address 0. -/
def example_heap : Heap :=
  Heap.uniform
    { object_id := 5, name := "NAND", width := 10, height := 20, fill_color := 1,
      frame_color := 2, reference_counter := 0 }
    { object_id := 9, x := 2, y := 3 }
    { object_id := 7, x := 0, y := 0, gate_template_port := some 0 }

/-- Gate of the placement example of spec §8: bounding box (0,0)-(10,20),
flipped horizontally. -/
def example_gate : Gate :=
  Gate.construct 0 10 0 20 ORIENTATION.ORIENTATION_FLIPPED_LEFT_RIGHT

/-- The heap after a successful `add_port`: the port object carries the two
new coordinates. -/
def heap_after_add_port (h : Heap) (p : Nat) (x y : ℚ) : Heap :=
  (h.set_port p ((h.ports p).set_x x)).set_port p
    (((h.set_port p ((h.ports p).set_x x)).ports p).set_y y)

/-- The gate after a successful `add_port` that left the heap `h2`. -/
def gate_after_add_port (h2 : Heap) (g : Gate) (p : Nat) : Gate :=
  { g with gate_ports := port_set_insert h2.ports p g.gate_ports }

/-- Heap in which every gate port lacks a valid object-id (object-id 0). -/
def heap_invalid_port_id : Heap :=
  Heap.uniform
    { object_id := 5, name := "NAND", width := 10, height := 20, fill_color := 1,
      frame_color := 2, reference_counter := 0 }
    { object_id := 9, x := 2, y := 3 }
    { object_id := 0, x := 0, y := 0, gate_template_port := some 0 }

/-- Heap in which every gate port has a valid object-id but references no
template port. -/
def heap_no_template_port : Heap :=
  Heap.uniform
    { object_id := 5, name := "NAND", width := 10, height := 20, fill_color := 1,
      frame_color := 2, reference_counter := 0 }
    { object_id := 9, x := 2, y := 3 }
    { object_id := 7, x := 0, y := 0, gate_template_port := none }

/-- A gate with the bounding box (0,0)-(10,20) and no defined orientation. -/
def gate_without_orientation : Gate :=
  Gate.construct 0 10 0 20 ORIENTATION.ORIENTATION_UNDEFINED

/-- The heap left by the unguarded decrement at the head of
`set_gate_template`. -/
def heap_after_decrement (h : Heap) (g : Gate) : Heap :=
  match g.gate_template with
  | some old => h.set_template old (h.templates old).decrement_reference_counter
  | none => h

/-- The world of the sharing example of spec §8: the gates A (position 0) and
B (position 1), both template-less, over the example heap, whose templates
all start with the reference count 0. -/
def example_world : World :=
  { heap := example_heap, gates := [example_gate, example_gate] }

/-- State after the example gate has been linked to the template at address 0
of the example heap: the gate is linked and the template's count is 1. -/
def example_linked : Heap × Gate :=
  example_gate.set_gate_template example_heap 0

/-- A template-less gate with the bounding box (0,0)-(100,50). -/
def wide_gate : Gate :=
  Gate.construct 0 100 0 50 ORIENTATION.ORIENTATION_NORMAL

/-- The example gate holding the one port at address 0, which references the
template port at address 0. -/
def example_gate_with_port : Gate :=
  { example_gate with gate_ports := [0] }

/-- A gate far from the origin: bounding box (67108864,0)-(67108928,20), normal
orientation.  Between 2^26 and 2^27 the `float` values are 8 apart. -/
def far_gate : Gate :=
  Gate.construct 67108864 67108928 0 20 ORIENTATION.ORIENTATION_NORMAL

/-- Heap in which the template port at address 0 has the valid object-id 9 and
every other template port has the object-id 0, which is not valid; every gate
port references the template port at address 0. -/
def heap_invalid_template_port_id : Heap :=
  { templates := example_heap.templates,
    template_ports := fun a =>
      if a = 0 then { object_id := 9, x := 2, y := 3 } else { object_id := 0, x := 0, y := 0 },
    ports := example_heap.ports,
    undefined_cast := example_heap.undefined_cast }

/-! ## Calls with the state in which they end -/

/-- The function `Gate::add_port` once more, now with the state in which the
call ends, whether it returns or throws: each mutation of the source is
applied to the state at the point where the source performs it, and a throw
ends the call in the state reached so far.  The second component is the
exception raised, if any. -/
def Gate.add_port_traced (ndebug : Bool) (h : Heap) (this : Gate) (gate_port : Nat) :
    (Heap × Gate) × Option Exception :=
  if !(h.ports gate_port).has_valid_object_id then
    ((h, this), some (.InvalidObjectIDException
      "Error in Gate::add_port(). The port has no valid object ID."))
  else if !(h.ports gate_port).has_template_port then
    ((h, this), some (.DegateLogicException
      "Error in Gate::add_port(). The gate port has no template port"))
  else if !this.has_orientation then
    ((h, this), some (.DegateLogicException
      "Error in Gate::add_port(). The gate has no defined orientation"))
  else
    match (h.ports gate_port).gate_template_port with
    | none => ((h, this), some .NullDereference)
    | some tp =>
      match this.get_relative_x_position_within_gate ndebug (h.template_ports tp).x with
      | .error e => ((h, this), some e)
      | .ok dx =>
        let h1 := h.set_port gate_port ((h.ports gate_port).set_x (float_add this.min_x dx))
        match (h1.ports gate_port).gate_template_port with
        | none => ((h1, this), some .NullDereference)
        | some tp1 =>
          match this.get_relative_y_position_within_gate ndebug (h1.template_ports tp1).y with
          | .error e => ((h1, this), some e)
          | .ok dy =>
            let h2 := h1.set_port gate_port ((h1.ports gate_port).set_y (float_add this.min_y dy))
            ((h2, { this with gate_ports := port_set_insert h2.ports gate_port this.gate_ports }),
              none)

/-- The function `Gate::remove_port` with the state in which the call ends
and the exception raised, if any. -/
def Gate.remove_port_traced (h : Heap) (this : Gate) (gate_port : Nat) :
    (Heap × Gate) × Option Exception :=
  if port_set_contains h.ports gate_port this.gate_ports then
    ((h, { this with gate_ports := port_set_erase h.ports gate_port this.gate_ports }), none)
  else ((h, this), some .CollectionLookupException)

/-- A public call with the state in which it ends and the exception raised,
if any.  `set_gate_template`, `remove_template`, `set_template_type_id`,
`set_orientation` and `clone_shallow` contain no throw. -/
def GateCall.traced (ndebug : Bool) (s : Heap × Gate) :
    GateCall → (Heap × Gate) × Option Exception
  | .set_gate_template t => (s.2.set_gate_template s.1 t, none)
  | .remove_template => (s.2.remove_template s.1, none)
  | .set_template_type_id id => ((s.1, s.2.set_template_type_id id), none)
  | .add_port p => s.2.add_port_traced ndebug s.1 p
  | .remove_port p => s.2.remove_port_traced s.1 p
  | .set_orientation o => ((s.1, s.2.set_orientation o), none)
  | .clone_shallow => ((s.1, s.2.clone_shallow), none)

/-- The keys of a port collection are pairwise different, which is what makes
the collection a set keyed by object-id. -/
def port_set_unique (ports : Nat → GatePort) (l : List Nat) : Prop :=
  l.Pairwise (fun a b => (ports a).object_id ≠ (ports b).object_id)

/-- The example gate holding the two ports at the addresses 0 and 1. -/
def example_gate_two_ports : Gate :=
  { example_gate with gate_ports := [0, 1] }

/-- Heap in which the gate port at address `a` has the object-id `a + 1`, is
placed at (0,0) and references the template port at address `a`, and the
template port at address `a` has the object-id `a + 101` and sits at (2,3). -/
def heap_distinct_ids : Heap :=
  { templates := example_heap.templates,
    template_ports := fun a => { object_id := a + 101, x := 2, y := 3 },
    ports := fun a => { object_id := a + 1, x := 0, y := 0, gate_template_port := some a },
    undefined_cast := example_heap.undefined_cast }

/-! ## The descriptive identifier

`QString` belongs to the Qt library.  Modelled from the Qt documentation of
`QString::arg`: the call returns a copy of the string in which every
occurrence of the lowest numbered place marker is replaced by the argument; a
place marker is `%` followed by an optional `L` and one or two decimal digits
with a value from 1 to 99; a string without a place marker is returned as it
is.  A `QString` is a list of characters; for a marker with `L` the same text
is inserted (the locale form of a number is outside the model). -/

/-- Modelled from the Qt documentation: the place marker that starts right
after a `%`, as its number and the count of characters it takes after the
`%`. -/
def QString.place_marker : List Char → Option (Nat × Nat)
  | [] => none
  | c :: rest =>
    let skipped : Nat := if c = 'L' then 1 else 0
    let body : List Char := if c = 'L' then rest else c :: rest
    match body with
    | [] => none
    | d1 :: r1 =>
      if d1.isDigit then
        match r1 with
        | [] =>
          if 1 ≤ d1.toNat - 48 then some (d1.toNat - 48, skipped + 1) else none
        | d2 :: _ =>
          if d2.isDigit then
            if 1 ≤ 10 * (d1.toNat - 48) + (d2.toNat - 48) then
              some (10 * (d1.toNat - 48) + (d2.toNat - 48), skipped + 2)
            else none
          else if 1 ≤ d1.toNat - 48 then some (d1.toNat - 48, skipped + 1) else none
      else none

/-- Modelled from the Qt documentation: the lowest place marker number that
occurs in the string, if there is any. -/
def QString.lowest_marker : List Char → Option Nat
  | [] => none
  | c :: rest =>
    if c = '%' then
      match QString.place_marker rest, QString.lowest_marker rest with
      | some (m, _), some t => some (min m t)
      | some (m, _), none => some m
      | none, t => t
    else QString.lowest_marker rest

/-- Modelled from the Qt documentation: the string with every place marker of
number `n` replaced by `a`; `skip` counts the characters of a replaced marker
that are still to be passed over. -/
def QString.replace_marker (n : Nat) (a : List Char) : Nat → List Char → List Char
  | _, [] => []
  | skip + 1, _ :: rest => QString.replace_marker n a skip rest
  | 0, c :: rest =>
    if c = '%' then
      match QString.place_marker rest with
      | some (m, len) =>
        if m = n then a ++ QString.replace_marker n a len rest
        else c :: QString.replace_marker n a 0 rest
      | none => c :: QString.replace_marker n a 0 rest
    else c :: QString.replace_marker n a 0 rest

/-- Modelled from the Qt documentation: `QString::arg` with a string
argument. -/
def QString.arg (s : List Char) (a : List Char) : List Char :=
  match QString.lowest_marker s with
  | some n => QString.replace_marker n a 0 s
  | none => s

/-- Modelled from the Qt documentation: `QString::arg` with an unsigned
integer argument, which is inserted in decimal notation. -/
def QString.arg_number (s : List Char) (a : Nat) : List Char :=
  QString.arg s (Nat.repr a).toList

/-- The function `Gate::get_descriptive_identifier`; `get_name`,
`get_object_id` and the template's `get_name` read the fields. -/
def Gate.get_descriptive_identifier (h : Heap) (this : Gate) : String :=
  match this.gate_template with
  | some t =>
    if this.has_name then
      String.mk (QString.arg (QString.arg "%1 : %2".toList this.name.toList)
        (h.templates t).name.toList)
    else
      String.mk (QString.arg_number (QString.arg "%1 (%2)".toList (h.templates t).name.toList)
        this.object_id)
  | none =>
    if !this.has_name then
      String.mk (QString.arg_number "(%1)".toList this.object_id)
    else
      String.mk (QString.arg_number (QString.arg "%1 (%2)".toList this.name.toList)
        this.object_id)

/-- The example gate, linked to the template at address 0 (named "NAND"),
with the object-id 42 and the name "%1". -/
def gate_named_like_a_marker : Gate :=
  { example_gate with gate_template := some 0, name := "%1", object_id := 42 }

/-- The example gate, linked to the template at address 0 (named "NAND"),
with the object-id 42 and the name "U7". -/
def gate_named_plainly : Gate :=
  { example_gate with gate_template := some 0, name := "U7", object_id := 42 }

/-! ## Deep copy

`Gate::clone_deep_into` is part of `Gate.cc`; what it calls is not: the
identity map `oldnew_t`, the function `clone_deep` of the deep-copy protocol
and the clone functions of templates, template ports and gate ports.  They
are modelled from spec §4.3: the first deep clone of an object creates a new
object, registers it in the identity map under the original and copies the
scalar attributes; a later deep clone of the same original through the same
map returns the clone already created. -/

/-- Modelled from the spec: the state of one clone operation: the heap it
works on, the identity map `oldnew_t` (spec §4.3 and glossary: from the
identity of an original to its already created clone), kept per kind of
object with the newest pair first, and the first address not yet in use, at
which the next clone is created. -/
structure CloneContext where
  heap : Heap
  oldnew_templates : List (Nat × Nat)
  oldnew_template_ports : List (Nat × Nat)
  oldnew_ports : List (Nat × Nat)
  next : Nat

/-- Modelled from the spec: the lookup of an original in the identity map. -/
def oldnew_find : List (Nat × Nat) → Nat → Option Nat
  | [], _ => none
  | (k, v) :: rest, a => if k = a then some v else oldnew_find rest a

/-- Modelled from the spec: `clone_deep` of a gate template (outside `src/`):
the clone already registered for it, or else a new template object with the
scalar attributes of the original, the reference count among them (spec §3
lists it as an attribute), registered under the original. -/
def GateTemplate.clone_deep (c : CloneContext) (t : Nat) : CloneContext × Nat :=
  match oldnew_find c.oldnew_templates t with
  | some a => (c, a)
  | none =>
    ({ c with heap := c.heap.set_template c.next (c.heap.templates t),
              oldnew_templates := (t, c.next) :: c.oldnew_templates,
              next := c.next + 1 }, c.next)

/-- Store a template port object at an address. -/
def Heap.set_template_port (h : Heap) (a : Nat) (tp : GateTemplatePort) : Heap :=
  { h with template_ports := Function.update h.template_ports a tp }

/-- Modelled from the spec: `clone_deep` of a template port (outside `src/`):
the clone already registered for it, or else a new object with the
attributes of the original, registered under the original. -/
def GateTemplatePort.clone_deep (c : CloneContext) (tp : Nat) : CloneContext × Nat :=
  match oldnew_find c.oldnew_template_ports tp with
  | some a => (c, a)
  | none =>
    ({ c with heap := c.heap.set_template_port c.next (c.heap.template_ports tp),
              oldnew_template_ports := (tp, c.next) :: c.oldnew_template_ports,
              next := c.next + 1 }, c.next)

/-- Modelled from the spec: the shallow clone of a gate port: the scalar
attributes of the original (object-id and position) and no template port
yet. -/
def GatePort.clone_shallow (p : GatePort) : GatePort :=
  { object_id := p.object_id, x := p.x, y := p.y, gate_template_port := none }

/-- The clone context with another heap. -/
def CloneContext.set_heap (c : CloneContext) (h : Heap) : CloneContext :=
  { c with heap := h }

/-- Modelled from the spec: the first step of the deep clone of a gate port
that is not yet registered: the shallow clone is created at the next unused
address and registered under the original. -/
def GatePort.register_clone (c : CloneContext) (p : Nat) : CloneContext :=
  { c with heap := c.heap.set_port c.next (c.heap.ports p).clone_shallow,
           oldnew_ports := (p, c.next) :: c.oldnew_ports,
           next := c.next + 1 }

/-- Modelled from the spec: the second step of the deep clone of a gate port:
the port clone at the address `a` gets the template port clone `r.2` that the
clone of the template port returned together with the context `r.1`. -/
def GatePort.bind_template_port (r : CloneContext × Nat) (a : Nat) : CloneContext :=
  r.1.set_heap (r.1.heap.set_port a { (r.1.heap.ports a) with gate_template_port := some r.2 })

/-- Modelled from the spec: `clone_deep` of a gate port (outside `src/`): the
clone already registered for it, or else a new port object, the shallow
clone of the original, registered under the original, whose template port is
then set to the deep clone of the original's template port through the same
map. -/
def GatePort.clone_deep (c : CloneContext) (p : Nat) : CloneContext × Nat :=
  match oldnew_find c.oldnew_ports p with
  | some a => (c, a)
  | none =>
    match (c.heap.ports p).gate_template_port with
    | none => (GatePort.register_clone c p, c.next)
    | some tp =>
      (GatePort.bind_template_port
        (GateTemplatePort.clone_deep (GatePort.register_clone c p) tp) c.next, c.next)

/-- Modelled from the spec: `PlacedLogicModelObject::clone_deep_into` (outside
`src/`), spec §4.3: the base placed-object state is copied by value. -/
def Gate.placed_object_clone_deep_into (this dest : Gate) : Gate :=
  { dest with object_id := this.object_id, name := this.name,
              fill_color := this.fill_color, frame_color := this.frame_color }

/-- Modelled from the spec: `Rectangle::clone_deep_into` (outside `src/`), spec
§4.3: the rectangle state is copied by value. -/
def Gate.rectangle_clone_deep_into (this dest : Gate) : Gate :=
  { dest with min_x := this.min_x, max_x := this.max_x,
              min_y := this.min_y, max_y := this.max_y }

/-- The statement `gate_ports.insert(p)` on a gate, with the heap that holds
the port objects. -/
def Gate.insert_port (this : Gate) (h : Heap) (p : Nat) : Gate :=
  { this with gate_ports := port_set_insert h.ports p this.gate_ports }

/-- The `for_each` of `Gate::clone_deep_into`: each port of the original, in
iteration order, is deep-cloned and the clone is inserted into the port set
of the cloned gate. -/
def clone_ports_loop : List Nat → CloneContext × Gate → CloneContext × Gate
  | [], acc => acc
  | d :: ds, acc =>
    clone_ports_loop ds
      ((GatePort.clone_deep acc.1 d).1,
        acc.2.insert_port (GatePort.clone_deep acc.1 d).1.heap (GatePort.clone_deep acc.1 d).2)

/-- The gate with another template link. -/
def Gate.set_gate_template_link (g : Gate) (t : Option Nat) : Gate :=
  { g with gate_template := t }

/-- The state after the base copies and the template assignment of
`Gate::clone_deep_into`: the clone's template link is assigned the deep clone
of the original's template; no reference count is touched here. -/
def clone_template_step (this dest : Gate) (c : CloneContext) : CloneContext × Gate :=
  match this.gate_template with
  | some t =>
    ((GateTemplate.clone_deep c t).1,
      (this.rectangle_clone_deep_into
        (this.placed_object_clone_deep_into dest)).set_gate_template_link
          (some (GateTemplate.clone_deep c t).2))
  | none => (c, this.rectangle_clone_deep_into (this.placed_object_clone_deep_into dest))

/-- The function `Gate::clone_deep_into`: the two base-class copies, the
assignment of the cloned template if there is a template, and the loop over
the ports. -/
def Gate.clone_deep_into (this dest : Gate) (c : CloneContext) : CloneContext × Gate :=
  clone_ports_loop this.gate_ports (clone_template_step this dest c)

/-- Modelled from the spec: `clone_deep` of the deep-copy protocol (outside
`src/`) for a gate that is not yet in the identity map: the shallow clone is
made and `clone_deep_into` fills it. -/
def Gate.clone_deep (this : Gate) (c : CloneContext) : CloneContext × Gate :=
  this.clone_deep_into this.clone_shallow c

/-- Deep clone of a list of gates, one after the other, through one identity
map. -/
def clone_deep_gates : CloneContext → List Gate → CloneContext × List Gate
  | c, [] => (c, [])
  | c, g :: gs =>
    ((clone_deep_gates (g.clone_deep c).1 gs).1,
      (g.clone_deep c).2 :: (clone_deep_gates (g.clone_deep c).1 gs).2)

/-- A clone operation that starts on the heap `h` with an empty identity map
and creates its objects from the address `next` on. -/
def CloneContext.start (h : Heap) (next : Nat) : CloneContext :=
  { heap := h, oldnew_templates := [], oldnew_template_ports := [], oldnew_ports := [],
    next := next }

/-- A call of one of the public operations on one gate, `clone_deep_into`
among them.  The call `clone_deep next` is `clone_deep` of the deep-copy
protocol with a new identity map whose clones are created from the address
`next` on: `clone_deep_into` fills the gate's own shallow clone, and the
sequence continues with that clone, on the heap that holds the clones. -/
inductive GateOperation where
  | call (c : GateCall)
  | clone_deep (next : Nat)
  deriving DecidableEq, Repr

/-- Effect of one operation on the heap and the gate. -/
def GateOperation.apply (ndebug : Bool) (s : Heap × Gate) : GateOperation → Heap × Gate
  | .call c => GateCall.apply ndebug s c
  | .clone_deep next =>
    ((s.2.clone_deep (CloneContext.start s.1 next)).1.heap,
      (s.2.clone_deep (CloneContext.start s.1 next)).2)

/-- What the clone operation keeps true of templates, relative to the heap
`h0` and the first unused address `n0` it started with: templates below `n0`
are the originals and are untouched, every registered template clone lies at
or above `n0` and below the next unused address and holds what the original
holds, and the map sends different originals to different clones. -/
structure TemplateCloneInvariant (h0 : Heap) (n0 : Nat) (c : CloneContext) : Prop where
  next_le : n0 ≤ c.next
  templates_below : ∀ U, U < n0 → c.heap.templates U = h0.templates U
  templates_map : ∀ t a, oldnew_find c.oldnew_templates t = some a →
    n0 ≤ a ∧ a < c.next ∧ c.heap.templates a = h0.templates t
  templates_injective : ∀ t1 t2 a, oldnew_find c.oldnew_templates t1 = some a →
    oldnew_find c.oldnew_templates t2 = some a → t1 = t2

/-- What the clone operation keeps true of gate ports, relative to the heap
`h0` and the first unused address `n0` it started with: ports below `n0` are
the originals and are untouched, every registered port clone lies at or above
`n0` and below the next unused address and has the original's object-id and
position. -/
structure PortCloneInvariant (h0 : Heap) (n0 : Nat) (c : CloneContext) : Prop where
  next_le : n0 ≤ c.next
  ports_below : ∀ d, d < n0 → c.heap.ports d = h0.ports d
  ports_map : ∀ d a, oldnew_find c.oldnew_ports d = some a →
    n0 ≤ a ∧ a < c.next ∧ (c.heap.ports a).object_id = (h0.ports d).object_id ∧
      (c.heap.ports a).x = (h0.ports d).x ∧ (c.heap.ports a).y = (h0.ports d).y

/-- The world in which the gates A and B are both linked to the template at
address 0, whose reference count is then 2. -/
def example_world_shared : World :=
  example_world.run [.set_gate_template 0 0, .set_gate_template 1 0]

/-- The example gate with the two ports 0 and 1, linked to the template at
address 0. -/
def example_gate_linked_two_ports : Gate :=
  { example_gate with gate_ports := [0, 1], gate_template := some 0, template_type_id := 5 }

/-- The example gate with the two ports 2 and 3, linked to the template at
address 0. -/
def example_gate_linked_other_ports : Gate :=
  { example_gate with gate_ports := [2, 3], gate_template := some 0, template_type_id := 5 }

/-! # Theorems

## `float` arithmetic

A value of `float_round` is computed from a certificate: the exponent `e` with
`2^e ≤ |q| < 2^(e+1)` and the rounded significand. -/

theorem round_half_even_intCast (m : ℤ) : round_half_even (m : ℚ) = m := by
  have hfl : Rat.floor (m : ℚ) = m := by
    have : Rat.floor (m : ℚ) = ⌊(m : ℚ)⌋ := rfl
    rw [this, Int.floor_intCast]
  unfold round_half_even
  rw [hfl]
  norm_num

theorem round_half_even_eq (q : ℚ) (f : ℤ) (hlo : (f : ℚ) - 1 / 2 ≤ q)
    (hhi : q ≤ f + 1 / 2) (hlo_tie : q = f - 1 / 2 → f % 2 = 0)
    (hhi_tie : q = f + 1 / 2 → f % 2 = 0) : round_half_even q = f := by
  have hfl : Rat.floor q = ⌊q⌋ := rfl
  unfold round_half_even
  rw [hfl]
  by_cases hq : (f : ℚ) ≤ q
  · have hfloor : ⌊q⌋ = f := by
      rw [Int.floor_eq_iff]
      exact ⟨hq, by linarith⟩
    rw [hfloor]
    by_cases h1 : q - f < 1 / 2
    · rw [if_pos h1]
    · have hEq : q = f + 1 / 2 := by linarith
      have h2 : ¬ (1 / 2 < q - (f : ℚ)) := by linarith
      rw [if_neg h1, if_neg h2, if_pos (hhi_tie hEq)]
  · push_neg at hq
    have hfloor : ⌊q⌋ = f - 1 := by
      rw [Int.floor_eq_iff]
      push_cast
      exact ⟨by linarith, by linarith⟩
    rw [hfloor]
    have hc : ((f - 1 : ℤ) : ℚ) = (f : ℚ) - 1 := by push_cast; rfl
    rw [hc]
    have h1 : ¬ (q - ((f : ℚ) - 1) < 1 / 2) := by linarith
    rw [if_neg h1]
    by_cases h2 : 1 / 2 < q - ((f : ℚ) - 1)
    · rw [if_pos h2]; omega
    · have hEq : q = f - 1 / 2 := by linarith
      have hev := hlo_tie hEq
      have hodd : ¬ ((f - 1) % 2 = 0) := by omega
      rw [if_neg h2, if_neg hodd]; omega

theorem float_exponent_eq (q : ℚ) (e : ℤ) (hlo : (2 : ℚ) ^ e ≤ |q|)
    (hhi : |q| < (2 : ℚ) ^ (e + 1)) (he : -126 ≤ e) : float_exponent q = e := by
  have hpos : 0 < |q| := lt_of_lt_of_le (by positivity) hlo
  have h1 : e ≤ Int.log 2 |q| :=
    (Int.zpow_le_iff_le_log (by norm_num) hpos).mp (by exact_mod_cast hlo)
  have h2 : Int.log 2 |q| < e + 1 :=
    (Int.lt_zpow_iff_log_lt (by norm_num) hpos).mp (by exact_mod_cast hhi)
  unfold float_exponent
  rw [max_eq_left (by omega)]
  omega

theorem float_round_eq (q : ℚ) (e f : ℤ) (hlo : (2 : ℚ) ^ e ≤ |q|)
    (hhi : |q| < (2 : ℚ) ^ (e + 1)) (he : -126 ≤ e)
    (hf : round_half_even (q / 2 ^ (e - 23)) = f) :
    float_round q = f * 2 ^ (e - 23) := by
  have hpos : 0 < |q| := lt_of_lt_of_le (by positivity) hlo
  have hq : q ≠ 0 := abs_pos.mp hpos
  unfold float_round
  rw [if_neg hq, float_exponent_eq q e hlo hhi he, hf]

theorem float_round_representable (q : ℚ) (e m : ℤ) (hq : q = m * 2 ^ (e - 23))
    (hlo : (2 : ℚ) ^ e ≤ |q|) (hhi : |q| < (2 : ℚ) ^ (e + 1)) (he : -126 ≤ e) :
    float_round q = q := by
  have h2 : (2 : ℚ) ^ (e - 23) ≠ 0 := by positivity
  have hdiv : q / 2 ^ (e - 23) = m := by
    rw [hq]; field_simp
  rw [float_round_eq q e m hlo hhi he (by rw [hdiv]; exact round_half_even_intCast m)]
  exact hq.symm

theorem float_round_zero : float_round 0 = 0 := by
  unfold float_round
  rw [if_pos rfl]

theorem float_round_natCast (n : Nat) (hn : n < 16777216) : float_round (n : ℚ) = n := by
  rcases Nat.eq_zero_or_pos n with h0 | hpos
  · subst h0; simpa using float_round_zero
  have hne : n ≠ 0 := Nat.pos_iff_ne_zero.mp hpos
  have hlo : 2 ^ Nat.log 2 n ≤ n := Nat.pow_log_le_self 2 hne
  have hhi : n < 2 ^ (Nat.log 2 n + 1) := Nat.lt_pow_succ_log_self (by norm_num) n
  have he : Nat.log 2 n ≤ 23 := by
    by_contra hc
    push_neg at hc
    have : 2 ^ 24 ≤ 2 ^ Nat.log 2 n := Nat.pow_le_pow_right (by norm_num) hc
    omega
  have habs : |(n : ℚ)| = n := abs_of_nonneg (Nat.cast_nonneg n)
  refine float_round_representable (n : ℚ) (Nat.log 2 n : ℤ)
    ((n * 2 ^ (23 - Nat.log 2 n) : ℕ) : ℤ) ?_ ?_ ?_ (by omega)
  · have h2 : (2 : ℚ) ^ ((Nat.log 2 n : ℤ) - 23) = ((2 : ℚ) ^ (23 - Nat.log 2 n))⁻¹ := by
      rw [← zpow_natCast, ← zpow_neg]
      congr 1
      push_cast [Nat.cast_sub he]
      ring
    rw [h2]
    push_cast
    field_simp
  · rw [habs, zpow_natCast]
    exact_mod_cast hlo
  · rw [habs]
    have : ((Nat.log 2 n : ℤ) + 1) = ((Nat.log 2 n + 1 : ℕ) : ℤ) := by push_cast; ring
    rw [this, zpow_natCast]
    exact_mod_cast hhi

/-- A natural number below 2^24 is a `float` value: rounding leaves it. -/
theorem float_round_small (q : ℚ) (n : Nat) (hq : q = n) (hn : n < 16777216) :
    float_round q = q := by
  rw [hq]; exact float_round_natCast n hn

/-! ## The port collection -/

theorem port_set_contains_insert (ports : Nat → GatePort) (p : Nat) (l : List Nat) :
    port_set_contains ports p (port_set_insert ports p l) = true := by
  induction l with
  | nil => simp [port_set_insert, port_set_contains]
  | cons q qs ih =>
    unfold port_set_insert
    by_cases h1 : (ports p).object_id < (ports q).object_id
    · simp [h1, port_set_contains]
    · by_cases h2 : (ports q).object_id < (ports p).object_id
      · simp only [h1, h2, if_true, if_false]
        simp only [port_set_contains, List.any_cons] at ih ⊢
        simp [ih]
      · have : (ports q).object_id = (ports p).object_id :=
          Nat.le_antisymm (Nat.le_of_not_lt h1) (Nat.le_of_not_lt h2)
        simp [h1, h2, port_set_contains, this]

theorem mem_port_set_insert (ports : Nat → GatePort) (p : Nat) (l : List Nat)
    (huniq : ∀ q ∈ l, (ports q).object_id = (ports p).object_id → q = p) :
    p ∈ port_set_insert ports p l := by
  induction l with
  | nil => simp [port_set_insert]
  | cons q qs ih =>
    unfold port_set_insert
    by_cases h1 : (ports p).object_id < (ports q).object_id
    · simp [h1]
    · by_cases h2 : (ports q).object_id < (ports p).object_id
      · simp only [h1, h2, if_true, if_false]
        exact List.mem_cons_of_mem _ (ih (fun r hr => huniq r (List.mem_cons_of_mem _ hr)))
      · have he : (ports q).object_id = (ports p).object_id :=
          Nat.le_antisymm (Nat.le_of_not_lt h1) (Nat.le_of_not_lt h2)
        have := huniq q (List.mem_cons_self _ _) he
        simp [h1, h2, this]

/-! ## Port placement (`add_port`) -/

theorem heap_after_add_port_object_id (h : Heap) (p : Nat) (x y : ℚ) (q : Nat) :
    ((heap_after_add_port h p x y).ports q).object_id = (h.ports q).object_id := by
  by_cases hq : q = p
  · subst hq; simp [heap_after_add_port, Heap.set_port, GatePort.set_x, GatePort.set_y]
  · simp [heap_after_add_port, Heap.set_port, Function.update, hq]

theorem heap_after_add_port_position (h : Heap) (p : Nat) (x y : ℚ) :
    ((heap_after_add_port h p x y).ports p).x = x ∧
      ((heap_after_add_port h p x y).ports p).y = y := by
  simp [heap_after_add_port, Heap.set_port, GatePort.set_x, GatePort.set_y]

theorem add_port_ok (ndebug : Bool) (h : Heap) (g : Gate) (p tp : Nat)
    (hor : g.orientation ≠ ORIENTATION.ORIENTATION_UNDEFINED)
    (hid : (h.ports p).has_valid_object_id = true)
    (htp : (h.ports p).gate_template_port = some tp) :
    g.add_port ndebug h p
      = .ok (heap_after_add_port h p
              (float_add g.min_x
                (spec_x_offset g.orientation g.get_width (h.template_ports tp).x))
              (float_add g.min_y
                (spec_y_offset g.orientation g.get_height (h.template_ports tp).y)),
            gate_after_add_port (heap_after_add_port h p
              (float_add g.min_x
                (spec_x_offset g.orientation g.get_width (h.template_ports tp).x))
              (float_add g.min_y
                (spec_y_offset g.orientation g.get_height (h.template_ports tp).y)))
              g p) := by
  have hor2 : g.has_orientation = true := by
    simp [Gate.has_orientation, hor]
  have htp2 : (h.ports p).has_template_port = true := by
    simp [GatePort.has_template_port, htp]
  cases ho : g.orientation with
  | ORIENTATION_UNDEFINED => exact absurd ho hor
  | ORIENTATION_NORMAL =>
    simp [Gate.add_port, hid, htp2, hor2, htp, Gate.get_relative_x_position_within_gate,
      Gate.get_relative_y_position_within_gate, ho, Heap.set_port, GatePort.set_x,
      GatePort.set_y, heap_after_add_port, gate_after_add_port, spec_x_offset, spec_y_offset]
  | ORIENTATION_FLIPPED_UP_DOWN =>
    simp [Gate.add_port, hid, htp2, hor2, htp, Gate.get_relative_x_position_within_gate,
      Gate.get_relative_y_position_within_gate, ho, Heap.set_port, GatePort.set_x,
      GatePort.set_y, heap_after_add_port, gate_after_add_port, spec_x_offset, spec_y_offset]
  | ORIENTATION_FLIPPED_LEFT_RIGHT =>
    simp [Gate.add_port, hid, htp2, hor2, htp, Gate.get_relative_x_position_within_gate,
      Gate.get_relative_y_position_within_gate, ho, Heap.set_port, GatePort.set_x,
      GatePort.set_y, heap_after_add_port, gate_after_add_port, spec_x_offset, spec_y_offset]
  | ORIENTATION_FLIPPED_BOTH =>
    simp [Gate.add_port, hid, htp2, hor2, htp, Gate.get_relative_x_position_within_gate,
      Gate.get_relative_y_position_within_gate, ho, Heap.set_port, GatePort.set_x,
      GatePort.set_y, heap_after_add_port, gate_after_add_port, spec_x_offset, spec_y_offset]

/-- C1, as stated, fails, in two ways.  Membership: the example gate stores
port 0 with object-id 7; port 1 has a valid object-id, also 7, and a template
port at (2,3), and the orientation is defined; `add_port` of port 1 succeeds and
places it at (8,3), but the keyed set keeps its one element and port 1 is not a
member afterwards.  Position: on the gate with minimum corner (67108864,0) and
normal orientation the port is placed at x = 67108864, the `float` sum of
67108864 and 2, and not at 67108866. -/
theorem add_port_leaves_port_outside_set :
    (∃ h1 g1, example_gate_with_port.add_port false example_heap 1 = .ok (h1, g1) ∧
      (h1.ports 1).x = 8 ∧ (h1.ports 1).y = 3 ∧
      g1.gate_ports = [0] ∧ 1 ∉ g1.gate_ports) ∧
    (∃ h1 g1, far_gate.add_port false example_heap 0 = .ok (h1, g1) ∧
      (h1.ports 0).x = 67108864 ∧
      far_gate.min_x + (example_heap.template_ports 0).x = 67108866) := by
  have h10 : float_round (10 - 0) = 10 - 0 :=
    float_round_small _ 10 (by norm_num) (by norm_num)
  have h8 : float_round (10 - 0 - 2) = 10 - 0 - 2 :=
    float_round_small _ 8 (by norm_num) (by norm_num)
  have h08 : float_round (0 + (10 - 0 - 2)) = 0 + (10 - 0 - 2) :=
    float_round_small _ 8 (by norm_num) (by norm_num)
  have h03 : float_round (0 + 3) = 0 + 3 :=
    float_round_small _ 3 (by norm_num) (by norm_num)
  have hfar : float_round (67108864 + 2) = 67108864 := by
    rw [float_round_eq (67108864 + 2) 26 8388608 (by norm_num) (by norm_num) (by norm_num)
      (round_half_even_eq _ _ (by norm_num) (by norm_num) (by norm_num) (by norm_num))]
    norm_num
  constructor
  · refine ⟨_, _, add_port_ok false example_heap example_gate_with_port 1 0 (by decide)
      (by decide) rfl, ?_, ?_, ?_, ?_⟩
    · rw [(heap_after_add_port_position _ _ _ _).1]
      simp only [example_gate_with_port, example_gate, Gate.construct, example_heap,
        Heap.uniform, spec_x_offset, Gate.get_width, float_add, float_sub]
      rw [h10, h8, h08]; norm_num
    · rw [(heap_after_add_port_position _ _ _ _).2]
      simp only [example_gate_with_port, example_gate, Gate.construct, example_heap,
        Heap.uniform, spec_y_offset, float_add]
      rw [h03]; norm_num
    · simp [gate_after_add_port, port_set_insert, heap_after_add_port_object_id,
        example_gate_with_port, example_heap, Heap.uniform]
    · simp [gate_after_add_port, port_set_insert, heap_after_add_port_object_id,
        example_gate_with_port, example_heap, Heap.uniform]
  · refine ⟨_, _, add_port_ok false example_heap far_gate 0 0 (by decide) (by decide) rfl,
      ?_, ?_⟩
    · rw [(heap_after_add_port_position _ _ _ _).1]
      simp only [far_gate, Gate.construct, example_heap, Heap.uniform, spec_x_offset,
        float_add]
      exact hfar
    · norm_num [far_gate, Gate.construct, example_heap, Heap.uniform]

/-- C1, amended: for a gate with one of the four defined orientations and a
port with a valid object-id and a template port at template-local (rel_x,
rel_y), `add_port` succeeds and the port's position becomes the bounding-box
minimum plus the offsets of the table of spec §4.1, every sum and difference
(the width and height of the box among them) being a `float` result, rounded to
the nearest `float` value; afterwards the gate's port set holds a port with the
port's object-id, and the port itself is a member whenever no other stored port
carries its object-id. -/
theorem add_port_places_port (ndebug : Bool) (h : Heap) (g : Gate) (p tp : Nat)
    (hor : g.orientation ≠ ORIENTATION.ORIENTATION_UNDEFINED)
    (hid : (h.ports p).has_valid_object_id = true)
    (htp : (h.ports p).gate_template_port = some tp) :
    ∃ h1 g1, g.add_port ndebug h p = .ok (h1, g1) ∧
      (h1.ports p).x
        = float_add g.min_x
            (spec_x_offset g.orientation g.get_width (h.template_ports tp).x) ∧
      (h1.ports p).y
        = float_add g.min_y
            (spec_y_offset g.orientation g.get_height (h.template_ports tp).y) ∧
      port_set_contains h1.ports p g1.gate_ports = true ∧
      ((∀ q ∈ g.gate_ports, (h.ports q).object_id = (h.ports p).object_id → q = p) →
        p ∈ g1.gate_ports) := by
  refine ⟨_, _, add_port_ok ndebug h g p tp hor hid htp, ?_, ?_, ?_, ?_⟩
  · exact (heap_after_add_port_position h p _ _).1
  · exact (heap_after_add_port_position h p _ _).2
  · exact port_set_contains_insert _ p g.gate_ports
  · intro huniq
    apply mem_port_set_insert
    intro q hq he
    rw [heap_after_add_port_object_id, heap_after_add_port_object_id] at he
    exact huniq q hq he

/-- C1, the example of spec §8: bounding box (0,0)-(10,20), flipped
horizontally, template port at (2,3): the port is placed at (8,3) and is a
member of the port set. -/
theorem add_port_places_port_witness :
    ∃ h1 g1, example_gate.add_port false example_heap 0 = .ok (h1, g1) ∧
      (h1.ports 0).x = 8 ∧ (h1.ports 0).y = 3 ∧
      port_set_contains h1.ports 0 g1.gate_ports = true ∧ 0 ∈ g1.gate_ports := by
  have h10 : float_round (10 - 0) = 10 - 0 :=
    float_round_small _ 10 (by norm_num) (by norm_num)
  have h8 : float_round (10 - 0 - 2) = 10 - 0 - 2 :=
    float_round_small _ 8 (by norm_num) (by norm_num)
  have h08 : float_round (0 + (10 - 0 - 2)) = 0 + (10 - 0 - 2) :=
    float_round_small _ 8 (by norm_num) (by norm_num)
  have h03 : float_round (0 + 3) = 0 + 3 :=
    float_round_small _ 3 (by norm_num) (by norm_num)
  obtain ⟨h1, g1, hok, hx, hy, hc, hm⟩ :=
    add_port_places_port false example_heap example_gate 0 0 (by decide) (by decide) rfl
  refine ⟨h1, g1, hok, ?_, ?_, hc, hm (by simp [example_gate, Gate.construct])⟩
  · rw [hx]
    simp only [example_gate, Gate.construct, example_heap, Heap.uniform, spec_x_offset,
      Gate.get_width, float_add, float_sub]
    rw [h10, h8, h08]; norm_num
  · rw [hy]
    simp only [example_gate, Gate.construct, example_heap, Heap.uniform, spec_y_offset,
      float_add]
    rw [h03]; norm_num

/-! ## Failure of `add_port` -/

/-- C2, as stated, fails: a port without a valid object-id makes `add_port`
fail with `InvalidObjectIDException`, which is not the logic error. -/
theorem add_port_invalid_id_is_not_logic_error :
    example_gate.add_port false heap_invalid_port_id 0
        = .error (.InvalidObjectIDException
            "Error in Gate::add_port(). The port has no valid object ID.") ∧
      (Exception.InvalidObjectIDException
          "Error in Gate::add_port(). The port has no valid object ID.").is_logic_error
        = false := by
  constructor
  · rfl
  · rfl

/-- C2, amended: `add_port` fails exactly when one of its three preconditions
is violated, and it reports the first violated one in the order valid
object-id, template port, orientation: `InvalidObjectIDException` for the id,
`DegateLogicException` with one message for the missing template port and with
another message for the undefined orientation; the three errors are pairwise
different. -/
theorem add_port_fails_iff (ndebug : Bool) (h : Heap) (g : Gate) (p : Nat) :
    ((∃ e, g.add_port ndebug h p = .error e) ↔
        ((h.ports p).has_valid_object_id = false ∨
          (h.ports p).gate_template_port = none ∨
          g.orientation = ORIENTATION.ORIENTATION_UNDEFINED)) ∧
      ((h.ports p).has_valid_object_id = false →
        g.add_port ndebug h p
          = .error (.InvalidObjectIDException
              "Error in Gate::add_port(). The port has no valid object ID.")) ∧
      ((h.ports p).has_valid_object_id = true →
        (h.ports p).gate_template_port = none →
        g.add_port ndebug h p
          = .error (.DegateLogicException
              "Error in Gate::add_port(). The gate port has no template port")) ∧
      ((h.ports p).has_valid_object_id = true →
        (h.ports p).gate_template_port ≠ none →
        g.orientation = ORIENTATION.ORIENTATION_UNDEFINED →
        g.add_port ndebug h p
          = .error (.DegateLogicException
              "Error in Gate::add_port(). The gate has no defined orientation")) ∧
      (Exception.InvalidObjectIDException
          "Error in Gate::add_port(). The port has no valid object ID."
        ≠ Exception.DegateLogicException
          "Error in Gate::add_port(). The gate port has no template port") ∧
      (Exception.InvalidObjectIDException
          "Error in Gate::add_port(). The port has no valid object ID."
        ≠ Exception.DegateLogicException
          "Error in Gate::add_port(). The gate has no defined orientation") ∧
      (Exception.DegateLogicException
          "Error in Gate::add_port(). The gate port has no template port"
        ≠ Exception.DegateLogicException
          "Error in Gate::add_port(). The gate has no defined orientation") := by
  have e1 : (h.ports p).has_valid_object_id = false →
      g.add_port ndebug h p
        = .error (.InvalidObjectIDException
            "Error in Gate::add_port(). The port has no valid object ID.") := by
    intro hv; simp [Gate.add_port, hv]
  have e2 : (h.ports p).has_valid_object_id = true →
      (h.ports p).gate_template_port = none →
      g.add_port ndebug h p
        = .error (.DegateLogicException
            "Error in Gate::add_port(). The gate port has no template port") := by
    intro hv ht; simp [Gate.add_port, hv, GatePort.has_template_port, ht]
  have e3 : (h.ports p).has_valid_object_id = true →
      (h.ports p).gate_template_port ≠ none →
      g.orientation = ORIENTATION.ORIENTATION_UNDEFINED →
      g.add_port ndebug h p
        = .error (.DegateLogicException
            "Error in Gate::add_port(). The gate has no defined orientation") := by
    intro hv ht ho
    obtain ⟨tp, htp⟩ := Option.ne_none_iff_exists'.mp ht
    simp [Gate.add_port, hv, GatePort.has_template_port, htp, Gate.has_orientation, ho]
  refine ⟨⟨?_, ?_⟩, e1, e2, e3, by decide, by decide, by decide⟩
  · rintro ⟨e, he⟩
    by_contra hcon
    push_neg at hcon
    obtain ⟨hv, ht, ho⟩ := hcon
    obtain ⟨tp, htp⟩ := Option.ne_none_iff_exists'.mp ht
    rw [add_port_ok ndebug h g p tp ho (by simpa using hv) htp] at he
    cases he
  · intro hcase
    by_cases hv : (h.ports p).has_valid_object_id = true
    · by_cases ht : (h.ports p).gate_template_port = none
      · exact ⟨_, e2 hv ht⟩
      · rcases hcase with h1 | h1 | h1
        · rw [hv] at h1; cases h1
        · exact absurd h1 ht
        · exact ⟨_, e3 hv ht h1⟩
    · exact ⟨_, e1 (by simpa using hv)⟩

/-- C2, amended, at three calls that each violate one precondition: a port
without a valid object-id, a port without a template port, and a gate without
a defined orientation. -/
theorem add_port_fails_iff_witness :
    example_gate.add_port false heap_invalid_port_id 0
        = .error (.InvalidObjectIDException
            "Error in Gate::add_port(). The port has no valid object ID.") ∧
      example_gate.add_port false heap_no_template_port 0
        = .error (.DegateLogicException
            "Error in Gate::add_port(). The gate port has no template port") ∧
      gate_without_orientation.add_port false example_heap 0
        = .error (.DegateLogicException
            "Error in Gate::add_port(). The gate has no defined orientation") ∧
      (∃ e, gate_without_orientation.add_port false example_heap 0 = .error e) :=
  ⟨(add_port_fails_iff false heap_invalid_port_id example_gate 0).2.1 (by decide),
    (add_port_fails_iff false heap_no_template_port example_gate 0).2.2.1 (by decide) rfl,
    (add_port_fails_iff false example_heap gate_without_orientation 0).2.2.2.1
      (by decide) (by decide) rfl,
    (add_port_fails_iff false example_heap gate_without_orientation 0).1.mpr
      (Or.inr (Or.inr rfl))⟩

/-! ## Template linkage and the reference count -/

theorem set_gate_template_heap (h : Heap) (g : Gate) (T : Nat) :
    (g.set_gate_template h T).1
      = if g.gate_template = some T then heap_after_decrement h g
        else (heap_after_decrement h g).set_template T
          ((heap_after_decrement h g).templates T).increment_reference_counter := by
  unfold Gate.set_gate_template heap_after_decrement
  by_cases hT : g.gate_template = some T
  · simp [hT]
  · simp only [hT, ne_eq, not_false_eq_true, if_true, if_false]
    split <;> rfl

theorem set_gate_template_same (h : Heap) (g : Gate) (T : Nat)
    (hT : g.gate_template = some T) :
    g.set_gate_template h T
      = (h.set_template T (h.templates T).decrement_reference_counter, g) := by
  simp [Gate.set_gate_template, hT]

theorem set_gate_template_link (h : Heap) (g : Gate) (T : Nat) :
    (g.set_gate_template h T).2.gate_template = some T := by
  unfold Gate.set_gate_template
  by_cases hT : g.gate_template = some T
  · simp [hT]
  · simp only [hT, ne_eq, not_false_eq_true, if_true]
    split <;> rfl

theorem set_gate_template_frame (h : Heap) (g : Gate) (T : Nat) :
    (g.set_gate_template h T).2.gate_ports = g.gate_ports ∧
      (g.set_gate_template h T).2.orientation = g.orientation ∧
      (g.set_gate_template h T).2.min_x = g.min_x ∧
      (g.set_gate_template h T).2.min_y = g.min_y ∧
      (g.set_gate_template h T).2.object_id = g.object_id ∧
      (g.set_gate_template h T).2.name = g.name := by
  unfold Gate.set_gate_template
  by_cases hT : g.gate_template = some T
  · simp [hT]
  · simp only [hT, ne_eq, not_false_eq_true, if_true]
    split <;> simp [Gate.set_max_x, Gate.set_max_y, Gate.set_frame_color, Gate.set_fill_color,
      Gate.set_template_type_id]

theorem set_gate_template_adopts (h : Heap) (g : Gate) (T : Nat)
    (hT : g.gate_template ≠ some T) :
    (g.set_gate_template h T).2.template_type_id = (h.templates T).object_id ∧
      (g.set_gate_template h T).2.fill_color = (h.templates T).fill_color ∧
      (g.set_gate_template h T).2.frame_color = (h.templates T).frame_color := by
  have hobj : ((heap_after_decrement h g).templates T).object_id = (h.templates T).object_id ∧
      ((heap_after_decrement h g).templates T).fill_color = (h.templates T).fill_color ∧
      ((heap_after_decrement h g).templates T).frame_color = (h.templates T).frame_color := by
    unfold heap_after_decrement
    cases hg : g.gate_template with
    | none => simp
    | some old =>
      have hne : T ≠ old := by
        intro hEq; apply hT; rw [hg, hEq]
      simp [Heap.set_template, Function.update, hne]
  unfold Gate.set_gate_template
  simp only [hT, ne_eq, not_false_eq_true, if_true]
  change _ ∧ _ ∧ _ at hobj
  unfold heap_after_decrement at hobj
  split <;> simpa [Gate.set_max_x, Gate.set_max_y, Gate.set_frame_color, Gate.set_fill_color,
      Gate.set_template_type_id] using hobj

theorem remove_template_heap (h : Heap) (g : Gate) :
    (g.remove_template h).1 = heap_after_decrement h g := by
  unfold Gate.remove_template heap_after_decrement
  cases hg : g.gate_template <;> simp [Gate.set_fill_color, Gate.set_frame_color, hg]

theorem remove_template_gate (h : Heap) (g : Gate) :
    (g.remove_template h).2
      = { g with gate_ports := [], orientation := ORIENTATION.ORIENTATION_UNDEFINED,
                 template_type_id := 0, fill_color := 0, frame_color := 0,
                 gate_template := none } := by
  unfold Gate.remove_template
  cases hg : g.gate_template <;> simp [Gate.set_fill_color, Gate.set_frame_color, hg]

/-- C3: linking a template-less gate to T raises T's count by exactly 1;
`remove_template` on a gate linked to T lowers T's count by exactly 1;
relinking a gate from T to a different template U lowers T's count by exactly
1 and raises U's by exactly 1; in each case the gate's link is the one asked
for and the count of every other template is unchanged. -/
theorem link_unlink_changes_count_by_one (h : Heap) (g : Gate) (T : Nat) :
    (g.gate_template = none →
      ((g.set_gate_template h T).1.templates T).reference_counter
          = (h.templates T).reference_counter + 1 ∧
        (g.set_gate_template h T).2.gate_template = some T ∧
        ∀ V, V ≠ T → ((g.set_gate_template h T).1.templates V).reference_counter
          = (h.templates V).reference_counter) ∧
      (g.gate_template = some T →
        ((g.remove_template h).1.templates T).reference_counter
            = (h.templates T).reference_counter - 1 ∧
          (g.remove_template h).2.gate_template = none ∧
          ∀ V, V ≠ T → ((g.remove_template h).1.templates V).reference_counter
            = (h.templates V).reference_counter) ∧
      (∀ U, g.gate_template = some T → U ≠ T →
        ((g.set_gate_template h U).1.templates T).reference_counter
            = (h.templates T).reference_counter - 1 ∧
          ((g.set_gate_template h U).1.templates U).reference_counter
            = (h.templates U).reference_counter + 1 ∧
          (g.set_gate_template h U).2.gate_template = some U ∧
          ∀ V, V ≠ T → V ≠ U → ((g.set_gate_template h U).1.templates V).reference_counter
            = (h.templates V).reference_counter) := by
  refine ⟨?_, ?_, ?_⟩
  · intro hg
    refine ⟨?_, set_gate_template_link h g T, ?_⟩
    · rw [set_gate_template_heap]
      simp [hg, heap_after_decrement, Heap.set_template,
        GateTemplate.increment_reference_counter]
    · intro V hV
      rw [set_gate_template_heap]
      simp [hg, heap_after_decrement, Heap.set_template, Function.update, hV]
  · intro hg
    refine ⟨?_, ?_, ?_⟩
    · rw [remove_template_heap]
      simp [hg, heap_after_decrement, Heap.set_template,
        GateTemplate.decrement_reference_counter]
    · rw [remove_template_gate]
    · intro V hV
      rw [remove_template_heap]
      simp [hg, heap_after_decrement, Heap.set_template, Function.update, hV]
  · intro U hg hU
    have hne : ¬ (some T = some U) := by
      intro hEq; exact hU (Option.some.inj hEq).symm
    have hTU : T ≠ U := fun hEq => hU hEq.symm
    refine ⟨?_, ?_, set_gate_template_link h g U, ?_⟩
    · rw [set_gate_template_heap]
      simp [hg, hne, heap_after_decrement, Heap.set_template, Function.update, hTU,
        GateTemplate.decrement_reference_counter]
    · rw [set_gate_template_heap]
      simp [hg, hne, heap_after_decrement, Heap.set_template, Function.update, hU,
        GateTemplate.increment_reference_counter]
    · intro V hVT hVU
      rw [set_gate_template_heap]
      simp [hg, hne, heap_after_decrement, Heap.set_template, Function.update, hVT, hVU]

/-- C3 at the example gate, and the example of spec §8: linking the
template-less example gate to the template at address 0 gives the count 1;
unlinking the linked gate gives the count 0; relinking the linked gate to the
template at address 1 gives the counts 0 and 1.  In the world of the two gates
A and B: A links T (count 1), B links T (count 2), A calls `remove_template`
(count 1, A reset), and B still links T. -/
theorem link_unlink_changes_count_by_one_witness :
    ((example_gate.set_gate_template example_heap 0).1.templates 0).reference_counter
        = (example_heap.templates 0).reference_counter + 1 ∧
      ((example_linked.2.remove_template example_linked.1).1.templates 0).reference_counter
        = (example_linked.1.templates 0).reference_counter - 1 ∧
      ((example_linked.2.set_gate_template example_linked.1 1).1.templates 0).reference_counter
        = (example_linked.1.templates 0).reference_counter - 1 ∧
      ((example_linked.2.set_gate_template example_linked.1 1).1.templates 1).reference_counter
        = (example_linked.1.templates 1).reference_counter + 1 ∧
      (example_world.run [.set_gate_template 0 0]).reference_counter 0 = 1 ∧
      (example_world.run [.set_gate_template 0 0, .set_gate_template 1 0]).reference_counter 0
        = 2 ∧
      (example_world.run
        [.set_gate_template 0 0, .set_gate_template 1 0, .remove_template 0]).reference_counter 0
        = 1 ∧
      ((example_world.run
        [.set_gate_template 0 0, .set_gate_template 1 0, .remove_template 0]).gates.map
          (fun g => (g.gate_template, g.orientation, g.template_type_id, g.gate_ports)))
        = [(none, ORIENTATION.ORIENTATION_UNDEFINED, 0, []),
            (some 0, ORIENTATION.ORIENTATION_FLIPPED_LEFT_RIGHT, 5, [])] := by
  have hl : example_linked.2.gate_template = some 0 :=
    set_gate_template_link example_heap example_gate 0
  refine ⟨((link_unlink_changes_count_by_one example_heap example_gate 0).1 rfl).1,
    ((link_unlink_changes_count_by_one example_linked.1 example_linked.2 0).2.1 hl).1,
    ((link_unlink_changes_count_by_one example_linked.1 example_linked.2 0).2.2 1 hl
      (by decide)).1,
    ((link_unlink_changes_count_by_one example_linked.1 example_linked.2 0).2.2 1 hl
      (by decide)).2.1, ?_, ?_, ?_, ?_⟩
  · simp [World.run, World.call, World.reference_counter, example_world,
      set_gate_template_heap, heap_after_decrement, Heap.set_template, example_gate,
      Gate.construct, example_heap, Heap.uniform, GateTemplate.increment_reference_counter]
  · simp [World.run, World.call, World.reference_counter, example_world,
      set_gate_template_heap, heap_after_decrement, Heap.set_template, example_gate,
      Gate.construct, example_heap, Heap.uniform, GateTemplate.increment_reference_counter]
  · simp [World.run, World.call, World.reference_counter, example_world,
      set_gate_template_heap, set_gate_template_link, remove_template_heap,
      heap_after_decrement, Heap.set_template, example_gate,
      Gate.construct, example_heap, Heap.uniform,
      GateTemplate.increment_reference_counter, GateTemplate.decrement_reference_counter]
  · have hB : ((example_gate.set_gate_template
        (example_gate.set_gate_template example_heap 0).1 0).2.orientation,
        (example_gate.set_gate_template
          (example_gate.set_gate_template example_heap 0).1 0).2.template_type_id,
        (example_gate.set_gate_template
          (example_gate.set_gate_template example_heap 0).1 0).2.gate_ports)
        = (ORIENTATION.ORIENTATION_FLIPPED_LEFT_RIGHT, 5, []) := by
      have hT : example_gate.gate_template ≠ some 0 := by decide
      rw [(set_gate_template_frame _ example_gate 0).1,
        (set_gate_template_frame _ example_gate 0).2.1,
        (set_gate_template_adopts _ example_gate 0 hT).1]
      simp [set_gate_template_heap, heap_after_decrement, Heap.set_template, example_gate,
        Gate.construct, example_heap, Heap.uniform, GateTemplate.increment_reference_counter]
    simp only [Prod.mk.injEq] at hB
    simp [World.run, World.call, example_world, set_gate_template_link, remove_template_gate,
      hB.1, hB.2.1, hB.2.2]

/-- C4 on the code: the example gate is linked to the template at address 0,
whose count is 1; setting the same template again leaves the gate as it is
but lowers the count to 0, so the call is not a no-op. -/
theorem set_same_template_lowers_count :
    example_linked.2.gate_template = some 0 ∧
      (example_linked.1.templates 0).reference_counter = 1 ∧
      (example_linked.2.set_gate_template example_linked.1 0).2 = example_linked.2 ∧
      ((example_linked.2.set_gate_template example_linked.1 0).1.templates 0).reference_counter
        = 0 := by
  have hl : example_linked.2.gate_template = some 0 :=
    set_gate_template_link example_heap example_gate 0
  have hc : (example_linked.1.templates 0).reference_counter = 1 := by
    simp [example_linked, set_gate_template_heap, heap_after_decrement, Heap.set_template,
      example_gate, Gate.construct, example_heap, Heap.uniform,
      GateTemplate.increment_reference_counter]
  refine ⟨hl, hc, ?_, ?_⟩
  · rw [set_gate_template_same _ _ _ hl]
  · rw [set_gate_template_same _ _ _ hl]
    simp [Heap.set_template, GateTemplate.decrement_reference_counter, hc]

/-- C5 on the code: one template-less gate and a template with count 0; after
the gate is linked to the template twice in a row the gate is linked (one
linked gate) and the count is 0; after a third such call the count is -1. -/
theorem count_differs_from_linked_gates :
    ({ heap := example_heap, gates := [example_gate] } : World).reference_counter 0 = 0 ∧
      (({ heap := example_heap, gates := [example_gate] } : World).run
        [.set_gate_template 0 0, .set_gate_template 0 0]).linked_gates 0 = 1 ∧
      (({ heap := example_heap, gates := [example_gate] } : World).run
        [.set_gate_template 0 0, .set_gate_template 0 0]).reference_counter 0 = 0 ∧
      (({ heap := example_heap, gates := [example_gate] } : World).run
        [.set_gate_template 0 0, .set_gate_template 0 0,
          .set_gate_template 0 0]).reference_counter 0 = -1 := by
  refine ⟨rfl, ?_, ?_, ?_⟩
  all_goals
    simp [World.run, World.call, World.reference_counter, World.linked_gates,
      set_gate_template_heap, set_gate_template_link, heap_after_decrement,
      Heap.set_template, example_gate, Gate.construct, example_heap, Heap.uniform,
      GateTemplate.increment_reference_counter, GateTemplate.decrement_reference_counter]

/-- C6: for every gate state, after `remove_template` the gate has an empty
port set, the undefined orientation, `template_type_id` 0, fill and frame
color 0 and no template link. -/
theorem remove_template_resets_gate (h : Heap) (g : Gate) :
    (g.remove_template h).2.gate_ports = [] ∧
      (g.remove_template h).2.orientation = ORIENTATION.ORIENTATION_UNDEFINED ∧
      (g.remove_template h).2.get_template_type_id = 0 ∧
      (g.remove_template h).2.fill_color = 0 ∧
      (g.remove_template h).2.frame_color = 0 ∧
      (g.remove_template h).2.gate_template = none ∧
      (g.remove_template h).2.has_template = false := by
  rw [remove_template_gate]
  simp [Gate.get_template_type_id, Gate.has_template]

/-! ## Bounding box under `set_gate_template` -/

theorem static_cast_unsigned_natCast (u : ℚ → Nat) (n : ℕ) (hn : n < 4294967296) :
    static_cast_unsigned u (n : ℚ) = n := by
  have hfl : Rat.floor (n : ℚ) = ⌊(n : ℚ)⌋ := rfl
  have h1 : (-1 : ℚ) < (n : ℚ) := lt_of_lt_of_le (by norm_num) (Nat.cast_nonneg n)
  have h2 : (n : ℚ) < 4294967296 := by exact_mod_cast hn
  unfold static_cast_unsigned
  rw [if_pos ⟨h1, h2⟩, hfl, Int.floor_natCast]
  simp

theorem natCast_le_of_static_cast_unsigned (u : ℚ → Nat) (q : ℚ) (n : ℕ) (hq : 0 ≤ q)
    (hq2 : q < 4294967296) (hn : static_cast_unsigned u q = n) : (n : ℚ) ≤ q := by
  have hfl : Rat.floor q = ⌊q⌋ := rfl
  unfold static_cast_unsigned at hn
  rw [if_pos ⟨by linarith, hq2⟩, hfl] at hn
  have h0 : 0 ≤ ⌊q⌋ := Int.floor_nonneg.mpr hq
  have h1 : ((⌊q⌋.toNat : ℤ)) = ⌊q⌋ := Int.toNat_of_nonneg h0
  have h2 : ((n : ℤ) : ℚ) ≤ q := by
    rw [← hn, h1]
    exact Int.floor_le q
  simpa using h2

theorem heap_after_decrement_other (h : Heap) (g : Gate) (T : Nat)
    (hT : g.gate_template ≠ some T) :
    (heap_after_decrement h g).templates T = h.templates T := by
  unfold heap_after_decrement
  cases hg : g.gate_template with
  | none => rfl
  | some old =>
    have hne : T ≠ old := by
      intro hEq; apply hT; rw [hg, hEq]
    simp [Heap.set_template, Function.update, hne]

/-- The gate left by `set_gate_template` with a template other than the
current one, written out. -/
theorem set_gate_template_other (h : Heap) (g : Gate) (T : Nat)
    (hT : g.gate_template ≠ some T) :
    (g.set_gate_template h T).2
      = if static_cast_unsigned h.undefined_cast g.get_width ≠ (h.templates T).width ∨
            static_cast_unsigned h.undefined_cast g.get_height ≠ (h.templates T).height then
          { g with gate_template := some T, template_type_id := (h.templates T).object_id,
                   fill_color := (h.templates T).fill_color,
                   frame_color := (h.templates T).frame_color,
                   max_x := float_add g.min_x (float_of_unsigned (h.templates T).width),
                   max_y := float_add g.min_y (float_of_unsigned (h.templates T).height) }
        else
          { g with gate_template := some T, template_type_id := (h.templates T).object_id,
                   fill_color := (h.templates T).fill_color,
                   frame_color := (h.templates T).frame_color } := by
  unfold Gate.set_gate_template
  simp only [hT, ne_eq, not_false_eq_true, if_true]
  cases hg : g.gate_template with
  | none =>
    simp only [Heap.set_template, GateTemplate.increment_reference_counter, Gate.set_max_x,
      Gate.set_max_y, Gate.set_frame_color, Gate.set_fill_color, Gate.set_template_type_id,
      Gate.get_width, Gate.get_height, Function.update_same, apply_ite Prod.snd]
  | some old =>
    have hne : T ≠ old := by
      intro hEq; apply hT; rw [hg, hEq]
    simp only [Heap.set_template, GateTemplate.decrement_reference_counter,
      GateTemplate.increment_reference_counter, Gate.set_max_x,
      Gate.set_max_y, Gate.set_frame_color, Gate.set_fill_color, Gate.set_template_type_id,
      Gate.get_width, Gate.get_height, Function.update_same, Function.update_noteq hne,
      apply_ite Prod.snd]

/-- The size of a box whose maximum corner was set to the `float` sum of a
minimum at a natural number and a template extent, the sum being below 2^24:
the extent itself. -/
theorem float_extent_exact (a w : ℕ) (hs : a + w < 16777216) :
    float_sub (float_add (a : ℚ) (float_of_unsigned w)) (a : ℚ) = w := by
  unfold float_sub float_add float_of_unsigned
  rw [float_round_natCast w (by omega)]
  rw [float_round_small ((a : ℚ) + w) (a + w) (by push_cast; rfl) hs]
  rw [float_round_small ((a : ℚ) + w - a) w (by ring) (by omega)]
  ring

/-- C7, as stated, fails, in two ways.  The gate with the box (0,0)-(100,50)
and no template is linked to a template of width 10 and height 20; afterwards
its width is 10 and its height 20, both smaller than before.  The gate with the
box (67108864,0)-(67108928,20), of width 64, is linked to the same template;
the `float` sum of 67108864 and 10 is 67108872, and afterwards its width is 8,
smaller than before and smaller than the template's width 10. -/
theorem set_gate_template_shrinks_box :
    (wide_gate.gate_template ≠ some 0 ∧
      wide_gate.get_width = 100 ∧ wide_gate.get_height = 50 ∧
      (wide_gate.set_gate_template example_heap 0).2.get_width = 10 ∧
      (wide_gate.set_gate_template example_heap 0).2.get_height = 20 ∧
      ¬ (wide_gate.get_width ≤ (wide_gate.set_gate_template example_heap 0).2.get_width) ∧
      ¬ (wide_gate.get_height
          ≤ (wide_gate.set_gate_template example_heap 0).2.get_height)) ∧
    (far_gate.gate_template ≠ some 0 ∧
      far_gate.get_width = 64 ∧
      (far_gate.set_gate_template example_heap 0).2.max_x = 67108872 ∧
      (far_gate.set_gate_template example_heap 0).2.get_width = 8 ∧
      ¬ (((example_heap.templates 0).width : ℚ)
          ≤ (far_gate.set_gate_template example_heap 0).2.get_width)) := by
  constructor
  · have hT : wide_gate.gate_template ≠ some 0 := by decide
    have hw : wide_gate.get_width = ((100 : ℕ) : ℚ) := by
      simp only [wide_gate, Gate.construct, Gate.get_width, float_sub]
      rw [float_round_small (100 - 0) 100 (by norm_num) (by norm_num)]; norm_num
    have hh : wide_gate.get_height = ((50 : ℕ) : ℚ) := by
      simp only [wide_gate, Gate.construct, Gate.get_height, float_sub]
      rw [float_round_small (50 - 0) 50 (by norm_num) (by norm_num)]; norm_num
    have hr := set_gate_template_other example_heap wide_gate 0 hT
    rw [hw, hh, static_cast_unsigned_natCast _ _ (by norm_num),
      static_cast_unsigned_natCast _ _ (by norm_num)] at hr
    have hcond : (100 : ℕ) ≠ (example_heap.templates 0).width ∨
        (50 : ℕ) ≠ (example_heap.templates 0).height := by
      left; decide
    rw [if_pos hcond] at hr
    have hw2 : (wide_gate.set_gate_template example_heap 0).2.get_width = 10 := by
      rw [hr]
      have := float_extent_exact 0 10 (by norm_num)
      simpa [Gate.get_width, wide_gate, Gate.construct, example_heap, Heap.uniform] using this
    have hh2 : (wide_gate.set_gate_template example_heap 0).2.get_height = 20 := by
      rw [hr]
      have := float_extent_exact 0 20 (by norm_num)
      simpa [Gate.get_height, wide_gate, Gate.construct, example_heap, Heap.uniform] using this
    refine ⟨hT, by rw [hw]; norm_num, by rw [hh]; norm_num, hw2, hh2, ?_, ?_⟩
    · rw [hw, hw2]; norm_num
    · rw [hh, hh2]; norm_num
  · have hT : far_gate.gate_template ≠ some 0 := by decide
    have hw : far_gate.get_width = ((64 : ℕ) : ℚ) := by
      simp only [far_gate, Gate.construct, Gate.get_width, float_sub]
      rw [float_round_small (67108928 - 67108864) 64 (by norm_num) (by norm_num)]; norm_num
    have hr := set_gate_template_other example_heap far_gate 0 hT
    rw [hw, static_cast_unsigned_natCast _ _ (by norm_num)] at hr
    have hcond : (64 : ℕ) ≠ (example_heap.templates 0).width ∨
        static_cast_unsigned example_heap.undefined_cast far_gate.get_height
          ≠ (example_heap.templates 0).height := by
      left; decide
    rw [if_pos hcond] at hr
    have h10 : float_of_unsigned 10 = 10 := by
      unfold float_of_unsigned
      exact float_round_small _ 10 (by norm_num) (by norm_num)
    have hsum : float_round (67108864 + 10) = 67108872 := by
      rw [float_round_eq (67108864 + 10) 26 8388609 (by norm_num) (by norm_num) (by norm_num)
        (round_half_even_eq _ _ (by norm_num) (by norm_num) (by norm_num) (by norm_num))]
      norm_num
    have hmax : (far_gate.set_gate_template example_heap 0).2.max_x = 67108872 := by
      rw [hr]
      simp only [far_gate, Gate.construct, example_heap, Heap.uniform, float_add]
      rw [h10]
      exact hsum
    have hw2 : (far_gate.set_gate_template example_heap 0).2.get_width = 8 := by
      unfold Gate.get_width float_sub
      rw [hmax]
      have hmin : (far_gate.set_gate_template example_heap 0).2.min_x = 67108864 := by
        rw [hr]; rfl
      rw [hmin, float_round_small (67108872 - 67108864) 8 (by norm_num) (by norm_num)]
      norm_num
    refine ⟨hT, by rw [hw]; norm_num, hmax, hw2, ?_⟩
    rw [hw2]
    norm_num [example_heap, Heap.uniform]

/-- C7, amended: for every gate and every template T other than the gate's
current one, `set_gate_template(T)` leaves the minimum corner unchanged; when
the width and height of the box, converted to `unsigned int`, both equal T's
declared width and height the box is unchanged, otherwise the maximum corner
becomes the `float` sum of the minimum corner and T's declared width and height,
whether that makes the box larger or smaller than before.  For a gate whose
minimum corner is at natural numbers a and b with a + T's width and b + T's
height below 2^24, and whose width and height lie in the range 0 to 2^32, the
width and height afterwards are at least T's declared width and height, and
they equal them when the box was resized. -/
theorem set_gate_template_box (h : Heap) (g : Gate) (T : Nat)
    (hT : g.gate_template ≠ some T) :
    (g.set_gate_template h T).2.min_x = g.min_x ∧
      (g.set_gate_template h T).2.min_y = g.min_y ∧
      ((static_cast_unsigned h.undefined_cast g.get_width = (h.templates T).width ∧
          static_cast_unsigned h.undefined_cast g.get_height = (h.templates T).height ∧
          (g.set_gate_template h T).2.max_x = g.max_x ∧
          (g.set_gate_template h T).2.max_y = g.max_y) ∨
        ((static_cast_unsigned h.undefined_cast g.get_width ≠ (h.templates T).width ∨
            static_cast_unsigned h.undefined_cast g.get_height ≠ (h.templates T).height) ∧
          (g.set_gate_template h T).2.max_x
            = float_add g.min_x (float_of_unsigned (h.templates T).width) ∧
          (g.set_gate_template h T).2.max_y
            = float_add g.min_y (float_of_unsigned (h.templates T).height))) ∧
      (∀ a b : ℕ, g.min_x = a → g.min_y = b →
        a + (h.templates T).width < 16777216 → b + (h.templates T).height < 16777216 →
        0 ≤ g.get_width → g.get_width < 4294967296 →
        0 ≤ g.get_height → g.get_height < 4294967296 →
        ((h.templates T).width : ℚ) ≤ (g.set_gate_template h T).2.get_width ∧
          ((h.templates T).height : ℚ) ≤ (g.set_gate_template h T).2.get_height ∧
          ((static_cast_unsigned h.undefined_cast g.get_width ≠ (h.templates T).width ∨
              static_cast_unsigned h.undefined_cast g.get_height
                ≠ (h.templates T).height) →
            (g.set_gate_template h T).2.get_width = (h.templates T).width ∧
              (g.set_gate_template h T).2.get_height = (h.templates T).height)) := by
  have hr := set_gate_template_other h g T hT
  by_cases hc : static_cast_unsigned h.undefined_cast g.get_width ≠ (h.templates T).width ∨
      static_cast_unsigned h.undefined_cast g.get_height ≠ (h.templates T).height
  · rw [if_pos hc] at hr
    rw [hr]
    refine ⟨rfl, rfl, Or.inr ⟨hc, rfl, rfl⟩, ?_⟩
    intro a b ha hb hsa hsb _ _ _ _
    have hw : float_sub (float_add g.min_x (float_of_unsigned (h.templates T).width)) g.min_x
        = (h.templates T).width := by
      rw [ha]; exact float_extent_exact a _ hsa
    have hh : float_sub (float_add g.min_y (float_of_unsigned (h.templates T).height)) g.min_y
        = (h.templates T).height := by
      rw [hb]; exact float_extent_exact b _ hsb
    refine ⟨le_of_eq hw.symm, le_of_eq hh.symm, fun _ => ⟨hw, hh⟩⟩
  · rw [if_neg hc] at hr
    rw [hr]
    push_neg at hc
    refine ⟨rfl, rfl, Or.inl ⟨hc.1, hc.2, rfl, rfl⟩, ?_⟩
    intro a b _ _ _ _ hw0 hw1 hh0 hh1
    refine ⟨?_, ?_, fun hne => ?_⟩
    · exact natCast_le_of_static_cast_unsigned _ _ _ hw0 hw1 hc.1
    · exact natCast_le_of_static_cast_unsigned _ _ _ hh0 hh1 hc.2
    · rcases hne with hne | hne
      · exact absurd hc.1 hne
      · exact absurd hc.2 hne

/-- C7, amended, at the gate with the box (0,0)-(100,50) and the template of
width 10 and height 20: the minimum corner stays (0,0), the box is resized and
the width and height afterwards are 10 and 20. -/
theorem set_gate_template_box_witness :
    (wide_gate.set_gate_template example_heap 0).2.min_x = wide_gate.min_x ∧
      (wide_gate.set_gate_template example_heap 0).2.min_y = wide_gate.min_y ∧
      ((example_heap.templates 0).width : ℚ)
        ≤ (wide_gate.set_gate_template example_heap 0).2.get_width ∧
      ((example_heap.templates 0).height : ℚ)
        ≤ (wide_gate.set_gate_template example_heap 0).2.get_height := by
  have hw : wide_gate.get_width = 100 := by
    simp only [wide_gate, Gate.construct, Gate.get_width, float_sub]
    rw [float_round_small (100 - 0) 100 (by norm_num) (by norm_num)]; norm_num
  have hh : wide_gate.get_height = 50 := by
    simp only [wide_gate, Gate.construct, Gate.get_height, float_sub]
    rw [float_round_small (50 - 0) 50 (by norm_num) (by norm_num)]; norm_num
  have hb := (set_gate_template_box example_heap wide_gate 0 (by decide)).2.2.2 0 0
    (by norm_num [wide_gate, Gate.construct]) (by norm_num [wide_gate, Gate.construct])
    (by decide) (by decide) (by rw [hw]; norm_num) (by rw [hw]; norm_num)
    (by rw [hh]; norm_num) (by rw [hh]; norm_num)
  exact ⟨(set_gate_template_box example_heap wide_gate 0 (by decide)).1,
    (set_gate_template_box example_heap wide_gate 0 (by decide)).2.1, hb.1, hb.2.1⟩

/-! ## The two template-port queries -/

theorem get_port_by_template_port_loop_ok (h : Heap) (tp : Option Nat) (l : List Nat) :
    (∃ p ∈ l, (h.ports p).gate_template_port = tp) →
      ∃ p, get_port_by_template_port_loop h tp l = .ok p ∧ p ∈ l ∧
        (h.ports p).gate_template_port = tp := by
  induction l with
  | nil => rintro ⟨p, hp, _⟩; cases hp
  | cons q qs ih =>
    rintro ⟨p, hp, hpt⟩
    unfold get_port_by_template_port_loop
    by_cases hq : (h.ports q).gate_template_port = tp
    · exact ⟨q, by simp [hq], List.mem_cons_self _ _, hq⟩
    · have hp2 : p ∈ qs := by
        rcases List.mem_cons.mp hp with hEq | hmem
        · subst hEq; exact absurd hpt hq
        · exact hmem
      obtain ⟨r, hr, hrm, hrt⟩ := ih ⟨p, hp2, hpt⟩
      exact ⟨r, by simp [hq, hr], List.mem_cons_of_mem _ hrm, hrt⟩

theorem get_port_by_template_port_loop_error (h : Heap) (tp : Option Nat) (l : List Nat) :
    (¬ ∃ p ∈ l, (h.ports p).gate_template_port = tp) →
      get_port_by_template_port_loop h tp l = .error .CollectionLookupException := by
  induction l with
  | nil => intro _; rfl
  | cons q qs ih =>
    intro hno
    unfold get_port_by_template_port_loop
    have hq : ¬ (h.ports q).gate_template_port = tp :=
      fun hq => hno ⟨q, List.mem_cons_self _ _, hq⟩
    have hrest : ¬ ∃ p ∈ qs, (h.ports p).gate_template_port = tp := by
      rintro ⟨p, hp, hpt⟩
      exact hno ⟨p, List.mem_cons_of_mem _ hp, hpt⟩
    simp [hq, ih hrest]

/-- C9: `get_port_by_template_port(tp)` fails exactly when no port of the
gate's port set has the template port `tp` (compared as a pointer), and the
failure is the lookup error; otherwise it returns a port that is in the port
set and whose template port is `tp`; the gate is the same after the call. -/
theorem get_port_by_template_port_spec (h : Heap) (g : Gate) (tp : Option Nat) :
    ((∃ e, g.get_port_by_template_port h tp = .error e) ↔
        ¬ ∃ p ∈ g.gate_ports, (h.ports p).gate_template_port = tp) ∧
      (∀ e, g.get_port_by_template_port h tp = .error e →
        e = .CollectionLookupException ∧ e.is_lookup_error = true) ∧
      ((∃ p ∈ g.gate_ports, (h.ports p).gate_template_port = tp) →
        ∃ p, g.get_port_by_template_port h tp = .ok (p, g) ∧ p ∈ g.gate_ports ∧
          (h.ports p).gate_template_port = tp) ∧
      (∀ p g1, g.get_port_by_template_port h tp = .ok (p, g1) →
        g1 = g ∧ p ∈ g.gate_ports ∧ (h.ports p).gate_template_port = tp) := by
  by_cases hex : ∃ p ∈ g.gate_ports, (h.ports p).gate_template_port = tp
  · obtain ⟨p, hp, hpm, hpt⟩ := get_port_by_template_port_loop_ok h tp g.gate_ports hex
    have hres : g.get_port_by_template_port h tp = .ok (p, g) := by
      simp [Gate.get_port_by_template_port, hp]
    refine ⟨⟨?_, fun hno => absurd hex hno⟩, ?_, fun _ => ⟨p, hres, hpm, hpt⟩, ?_⟩
    · rintro ⟨e, he⟩; rw [hres] at he; cases he
    · intro e he; rw [hres] at he; cases he
    · intro q g1 hq
      rw [hres] at hq
      cases hq
      exact ⟨rfl, hpm, hpt⟩
  · have hres : g.get_port_by_template_port h tp = .error .CollectionLookupException := by
      simp [Gate.get_port_by_template_port,
        get_port_by_template_port_loop_error h tp g.gate_ports hex]
    refine ⟨⟨fun _ => hex, fun _ => ⟨_, hres⟩⟩, ?_, fun hyes => absurd hyes hex, ?_⟩
    · intro e he; rw [hres] at he; cases he; exact ⟨rfl, rfl⟩
    · intro q g1 hq; rw [hres] at hq; cases hq

/-- C9 at the example gate with one port: the lookup of the template port at
address 0 returns the port at address 0 and the gate as it was; the lookup of
the template port at address 1, which no port references, fails. -/
theorem get_port_by_template_port_spec_witness :
    (∃ p, example_gate_with_port.get_port_by_template_port example_heap (some 0)
          = .ok (p, example_gate_with_port) ∧
        p ∈ example_gate_with_port.gate_ports ∧
        (example_heap.ports p).gate_template_port = some 0) ∧
      (∃ e, example_gate_with_port.get_port_by_template_port example_heap (some 1)
        = .error e) :=
  ⟨(get_port_by_template_port_spec example_heap example_gate_with_port (some 0)).2.2.1
      ⟨0, by decide, rfl⟩,
    (get_port_by_template_port_spec example_heap example_gate_with_port (some 1)).1.mpr
      (by
        rintro ⟨p, _, hp⟩
        simp [example_heap, Heap.uniform] at hp)⟩

/-- C10, as stated, fails: with assertions compiled in, the query for a
template port without a valid object-id on a gate that has a port aborts at
the assertion instead of returning a value. -/
theorem has_template_port_asserts_valid_id :
    (heap_invalid_template_port_id.template_ports 1).has_valid_object_id = false ∧
      example_gate_with_port.has_template_port false heap_invalid_template_port_id 1
        = .error .AssertionFailure := by
  constructor
  · rfl
  · rfl

/-- C10, amended: when every port of the set references a template port and,
in a build with assertions, `tp` and the template ports of all ports of the
set have valid object-ids (what the two assertions demand), then
`has_template_port(tp)` returns a value, and the value is true exactly when
some port of the set has a template port whose object-id equals that of `tp`,
whatever the identity of that template port. -/
theorem has_template_port_spec (ndebug : Bool) (h : Heap) (g : Gate) (tp : Nat)
    (hnn : ∀ p ∈ g.gate_ports, (h.ports p).gate_template_port ≠ none)
    (hv : ndebug = false → ∀ p ∈ g.gate_ports,
      (h.template_ports tp).has_valid_object_id = true ∧
        ∀ t, (h.ports p).gate_template_port = some t →
          (h.template_ports t).has_valid_object_id = true) :
    ∃ b, g.has_template_port ndebug h tp = .ok b ∧
      (b = true ↔ ∃ p ∈ g.gate_ports, ∃ t, (h.ports p).gate_template_port = some t ∧
        (h.template_ports t).object_id = (h.template_ports tp).object_id) := by
  unfold Gate.has_template_port
  generalize g.gate_ports = l at hnn hv
  induction l with
  | nil => exact ⟨false, rfl, by simp⟩
  | cons q qs ih =>
    obtain ⟨t, ht⟩ := Option.ne_none_iff_exists'.mp (hnn q (List.mem_cons_self _ _))
    have hq1 : (!ndebug && !(h.template_ports t).has_valid_object_id) = false := by
      cases hnd : ndebug with
      | true => rfl
      | false => simp [((hv hnd) q (List.mem_cons_self _ _)).2 t ht]
    have hq2 : (!ndebug && !(h.template_ports tp).has_valid_object_id) = false := by
      cases hnd : ndebug with
      | true => rfl
      | false => simp [((hv hnd) q (List.mem_cons_self _ _)).1]
    unfold has_template_port_loop
    simp only [ht, hq1, hq2]
    by_cases hEq : (h.template_ports t).object_id = (h.template_ports tp).object_id
    · exact ⟨true, by simp [hEq], by
        simp only [true_iff]
        exact ⟨q, List.mem_cons_self _ _, t, ht, hEq⟩⟩
    · obtain ⟨b, hb, hbiff⟩ := ih (fun p hp => hnn p (List.mem_cons_of_mem _ hp))
        (fun hnd p hp => hv hnd p (List.mem_cons_of_mem _ hp))
      refine ⟨b, by simp [hEq, hb], ?_⟩
      rw [hbiff]
      constructor
      · rintro ⟨p, hp, t1, ht1, he1⟩
        exact ⟨p, List.mem_cons_of_mem _ hp, t1, ht1, he1⟩
      · rintro ⟨p, hp, t1, ht1, he1⟩
        rcases List.mem_cons.mp hp with hpq | hmem
        · subst hpq
          rw [ht] at ht1
          cases ht1
          exact absurd he1 hEq
        · exact ⟨p, hmem, t1, ht1, he1⟩

/-- C10, amended, at the example gate with one port: a template port at
another address with the same object-id is reported as present. -/
theorem has_template_port_spec_witness :
    ∃ b, example_gate_with_port.has_template_port false example_heap 1 = .ok b ∧
      (b = true ↔ ∃ p ∈ example_gate_with_port.gate_ports, ∃ t,
        (example_heap.ports p).gate_template_port = some t ∧
        (example_heap.template_ports t).object_id = (example_heap.template_ports 1).object_id) :=
  has_template_port_spec false example_heap example_gate_with_port 1
    (by intro p _; simp [example_heap, Heap.uniform])
    (by intro _ p _; simp [example_heap, Heap.uniform, GateTemplatePort.has_valid_object_id])

/-! ## The cached type-id under the calls on one gate -/

theorem port_set_contains_iff (ports : Nat → GatePort) (p : Nat) (l : List Nat) :
    port_set_contains ports p l = true ↔
      ∃ q ∈ l, (ports q).object_id = (ports p).object_id := by
  simp [port_set_contains, List.any_eq_true]

theorem mem_of_mem_port_set_erase (ports : Nat → GatePort) (p : Nat) (l : List Nat) :
    ∀ q ∈ port_set_erase ports p l, q ∈ l := by
  induction l with
  | nil => intro q hq; simp [port_set_erase] at hq
  | cons r rs ih =>
    intro q hq
    unfold port_set_erase at hq
    by_cases hr : (ports r).object_id = (ports p).object_id
    · simp only [hr, if_true] at hq
      exact List.mem_cons_of_mem _ hq
    · simp only [hr, if_false] at hq
      rcases List.mem_cons.mp hq with hEq | hmem
      · rw [hEq]; exact List.mem_cons_self _ _
      · exact List.mem_cons_of_mem _ (ih q hmem)

theorem mem_port_set_erase_of_ne (ports : Nat → GatePort) (p : Nat) (l : List Nat) :
    ∀ q ∈ l, (ports q).object_id ≠ (ports p).object_id → q ∈ port_set_erase ports p l := by
  induction l with
  | nil => intro q hq; cases hq
  | cons r rs ih =>
    intro q hq hne
    unfold port_set_erase
    by_cases hr : (ports r).object_id = (ports p).object_id
    · simp only [hr, if_true]
      rcases List.mem_cons.mp hq with hEq | hmem
      · subst hEq; exact absurd hr hne
      · exact hmem
    · simp only [hr, if_false]
      rcases List.mem_cons.mp hq with hEq | hmem
      · rw [hEq]; exact List.mem_cons_self _ _
      · exact List.mem_cons_of_mem _ (ih q hmem hne)

theorem key_ne_of_mem_port_set_erase (ports : Nat → GatePort) (p : Nat) (l : List Nat)
    (hu : port_set_unique ports l) :
    ∀ q ∈ port_set_erase ports p l, (ports q).object_id ≠ (ports p).object_id := by
  induction l with
  | nil => intro q hq; simp [port_set_erase] at hq
  | cons r rs ih =>
    intro q hq
    have hu2 := List.pairwise_cons.mp hu
    unfold port_set_erase at hq
    by_cases hr : (ports r).object_id = (ports p).object_id
    · simp only [hr, if_true] at hq
      have := hu2.1 q hq
      rw [hr] at this
      exact fun hEq => this hEq.symm
    · simp only [hr, if_false] at hq
      rcases List.mem_cons.mp hq with hEq | hmem
      · rw [hEq]; exact hr
      · exact ih hu2.2 q hmem

theorem remove_port_traced_agrees (h : Heap) (g : Gate) (p : Nat) :
    (g.remove_port_traced h p).1.1 = h ∧
      (∀ g1, g.remove_port h p = .ok g1 ↔
        g.remove_port_traced h p = ((h, g1), none)) ∧
      (∀ e, g.remove_port h p = .error e ↔
        g.remove_port_traced h p = ((h, g), some e)) := by
  unfold Gate.remove_port Gate.remove_port_traced
  cases hc : port_set_contains h.ports p g.gate_ports
  · refine ⟨by simp, ?_, ?_⟩
    · intro g1; simp
    · intro e; simp
  · refine ⟨by simp, ?_, ?_⟩
    · intro g1; simp
    · intro e; simp

/-- C12, as stated, fails: the example gate stores the one port 0, with
object-id 7; port 1 is another port, not a member, with the same object-id.
`remove_port` of port 1 does not fail; it succeeds and leaves the port set
empty, so port 0, which was not the argument, is no longer a member. -/
theorem remove_port_erases_other_port :
    1 ∉ example_gate_with_port.gate_ports ∧ 0 ∈ example_gate_with_port.gate_ports ∧
      (example_heap.ports 1).object_id = (example_heap.ports 0).object_id ∧
      (∃ g1, example_gate_with_port.remove_port example_heap 1 = .ok g1 ∧
        g1.gate_ports = [] ∧ 0 ∉ g1.gate_ports) := by
  refine ⟨by decide, by decide, rfl, _, rfl, ?_, ?_⟩
  · simp [example_gate_with_port, port_set_erase, example_heap, Heap.uniform]
  · simp [example_gate_with_port, port_set_erase, example_heap, Heap.uniform]

/-- C12, amended: `remove_port(p)` fails, with the lookup error, exactly when
the port set holds no port with the object-id of `p` (the set looks `p` up by
its key); a member is always removed without error.  When the call succeeds
the resulting port set is the previous one without the entry carrying the
object-id of `p`: every port with another object-id is still a member, nothing
is added, and, keys in the set being pairwise different, `p` is no longer a
member; the template link, the heap with every reference count, the
orientation and the bounding box are unchanged.  When no stored port other
than `p` carries the object-id of `p`, the call fails exactly when `p` is not a
member, and on success every port other than `p` is still a member. -/
theorem remove_port_spec (h : Heap) (g : Gate) (p : Nat) :
    ((∃ e, g.remove_port h p = .error e) ↔
        port_set_contains h.ports p g.gate_ports = false) ∧
      (∀ e, g.remove_port h p = .error e →
        e = .CollectionLookupException ∧ e.is_lookup_error = true) ∧
      (p ∈ g.gate_ports → ∃ g1, g.remove_port h p = .ok g1) ∧
      (∀ g1, g.remove_port h p = .ok g1 →
        (∀ q ∈ g.gate_ports, (h.ports q).object_id ≠ (h.ports p).object_id →
            q ∈ g1.gate_ports) ∧
          (∀ q ∈ g1.gate_ports, q ∈ g.gate_ports) ∧
          (port_set_unique h.ports g.gate_ports →
            port_set_contains h.ports p g1.gate_ports = false ∧ p ∉ g1.gate_ports ∧
              ∀ q, q ∈ g1.gate_ports ↔
                (q ∈ g.gate_ports ∧ (h.ports q).object_id ≠ (h.ports p).object_id)) ∧
          g1.gate_template = g.gate_template ∧
          (g.remove_port_traced h p).1 = (h, g1) ∧
          (∀ T, ((g.remove_port_traced h p).1.1.templates T).reference_counter
            = (h.templates T).reference_counter) ∧
          g1.orientation = g.orientation ∧
          g1.min_x = g.min_x ∧ g1.max_x = g.max_x ∧
          g1.min_y = g.min_y ∧ g1.max_y = g.max_y) ∧
      ((∀ q ∈ g.gate_ports, (h.ports q).object_id = (h.ports p).object_id → q = p) →
        ((∃ e, g.remove_port h p = .error e) ↔ p ∉ g.gate_ports) ∧
          (∀ g1, g.remove_port h p = .ok g1 →
            ∀ q ∈ g.gate_ports, q ≠ p → q ∈ g1.gate_ports)) := by
  refine ⟨?_, ?_, ?_, ?_, ?_⟩
  rotate_right
  · intro hkey
    have hiff : port_set_contains h.ports p g.gate_ports = true ↔ p ∈ g.gate_ports := by
      rw [port_set_contains_iff]
      constructor
      · rintro ⟨q, hq, hEq⟩
        rw [← hkey q hq hEq]; exact hq
      · intro hp; exact ⟨p, hp, rfl⟩
    constructor
    · unfold Gate.remove_port
      cases hc : port_set_contains h.ports p g.gate_ports
      · have hp : p ∉ g.gate_ports := fun hp => by
          rw [hiff.mpr hp] at hc; cases hc
        simp [hp]
      · have hp : p ∈ g.gate_ports := hiff.mp hc
        simp [hp]
    · intro g1 hok q hq hne
      unfold Gate.remove_port at hok
      split at hok
      · cases hok
        exact mem_port_set_erase_of_ne h.ports p g.gate_ports q hq
          (fun hEq => hne (hkey q hq hEq))
      · cases hok
  · unfold Gate.remove_port
    cases hc : port_set_contains h.ports p g.gate_ports
    · simp
    · simp
  · intro e he
    unfold Gate.remove_port at he
    split at he
    · cases he
    · cases he; exact ⟨rfl, rfl⟩
  · intro hp
    have hc : port_set_contains h.ports p g.gate_ports = true :=
      (port_set_contains_iff h.ports p g.gate_ports).mpr ⟨p, hp, rfl⟩
    refine ⟨{ g with gate_ports := port_set_erase h.ports p g.gate_ports }, ?_⟩
    simp [Gate.remove_port, hc]
  · intro g1 hok
    have htr := ((remove_port_traced_agrees h g p).2.1 g1).mp hok
    unfold Gate.remove_port at hok
    split at hok
    · cases hok
      refine ⟨mem_port_set_erase_of_ne h.ports p g.gate_ports,
        mem_of_mem_port_set_erase h.ports p g.gate_ports, ?_, rfl, by rw [htr], ?_, rfl, rfl,
        rfl, rfl, rfl⟩
      · intro hu
        have hkey := key_ne_of_mem_port_set_erase h.ports p g.gate_ports hu
        refine ⟨?_, ?_, ?_⟩
        · cases hc : port_set_contains h.ports p (port_set_erase h.ports p g.gate_ports)
          · rfl
          · obtain ⟨q, hq, hEq⟩ := (port_set_contains_iff _ _ _).mp hc
            exact absurd hEq (hkey q hq)
        · intro hmem
          exact hkey p hmem rfl
        · intro q
          constructor
          · intro hq
            exact ⟨mem_of_mem_port_set_erase h.ports p g.gate_ports q hq, hkey q hq⟩
          · rintro ⟨hq, hne⟩
            exact mem_port_set_erase_of_ne h.ports p g.gate_ports q hq hne
      · intro T
        rw [htr]
    · cases hok

/-- C12, amended, at the gate with the two ports 0 and 1 over the heap with
pairwise different object-ids: removing the port 0 succeeds and leaves exactly
the port 1; removing the port 2, which is not in the set, fails. -/
theorem remove_port_spec_witness :
    (∃ g1, example_gate_two_ports.remove_port heap_distinct_ids 0 = .ok g1 ∧
        g1.gate_ports = [1]) ∧
      (∃ e, example_gate_two_ports.remove_port heap_distinct_ids 2 = .error e) := by
  refine ⟨?_, (remove_port_spec heap_distinct_ids example_gate_two_ports 2).1.mpr (by decide)⟩
  obtain ⟨g1, hg1⟩ := (remove_port_spec heap_distinct_ids example_gate_two_ports 0).2.2.1
    (by decide)
  refine ⟨g1, hg1, ?_⟩
  simp [Gate.remove_port, port_set_contains, example_gate_two_ports, heap_distinct_ids,
    port_set_erase] at hg1
  rw [← hg1]

/-! ## A raised error means no state change -/

theorem add_port_traced_ok (ndebug : Bool) (h : Heap) (g : Gate) (p tp : Nat)
    (hor : g.orientation ≠ ORIENTATION.ORIENTATION_UNDEFINED)
    (hid : (h.ports p).has_valid_object_id = true)
    (htp : (h.ports p).gate_template_port = some tp) :
    g.add_port_traced ndebug h p
      = ((heap_after_add_port h p
              (float_add g.min_x
                (spec_x_offset g.orientation g.get_width (h.template_ports tp).x))
              (float_add g.min_y
                (spec_y_offset g.orientation g.get_height (h.template_ports tp).y)),
            gate_after_add_port (heap_after_add_port h p
              (float_add g.min_x
                (spec_x_offset g.orientation g.get_width (h.template_ports tp).x))
              (float_add g.min_y
                (spec_y_offset g.orientation g.get_height (h.template_ports tp).y)))
              g p), none) := by
  have hor2 : g.has_orientation = true := by
    simp [Gate.has_orientation, hor]
  have htp2 : (h.ports p).has_template_port = true := by
    simp [GatePort.has_template_port, htp]
  cases ho : g.orientation with
  | ORIENTATION_UNDEFINED => exact absurd ho hor
  | ORIENTATION_NORMAL =>
    simp [Gate.add_port_traced, hid, htp2, hor2, htp, Gate.get_relative_x_position_within_gate,
      Gate.get_relative_y_position_within_gate, ho, Heap.set_port, GatePort.set_x,
      GatePort.set_y, heap_after_add_port, gate_after_add_port, spec_x_offset, spec_y_offset]
  | ORIENTATION_FLIPPED_UP_DOWN =>
    simp [Gate.add_port_traced, hid, htp2, hor2, htp, Gate.get_relative_x_position_within_gate,
      Gate.get_relative_y_position_within_gate, ho, Heap.set_port, GatePort.set_x,
      GatePort.set_y, heap_after_add_port, gate_after_add_port, spec_x_offset, spec_y_offset]
  | ORIENTATION_FLIPPED_LEFT_RIGHT =>
    simp [Gate.add_port_traced, hid, htp2, hor2, htp, Gate.get_relative_x_position_within_gate,
      Gate.get_relative_y_position_within_gate, ho, Heap.set_port, GatePort.set_x,
      GatePort.set_y, heap_after_add_port, gate_after_add_port, spec_x_offset, spec_y_offset]
  | ORIENTATION_FLIPPED_BOTH =>
    simp [Gate.add_port_traced, hid, htp2, hor2, htp, Gate.get_relative_x_position_within_gate,
      Gate.get_relative_y_position_within_gate, ho, Heap.set_port, GatePort.set_x,
      GatePort.set_y, heap_after_add_port, gate_after_add_port, spec_x_offset, spec_y_offset]

theorem add_port_traced_error (ndebug : Bool) (h : Heap) (g : Gate) (p : Nat) (e : Exception)
    (he : (g.add_port_traced ndebug h p).2 = some e) :
    (g.add_port_traced ndebug h p).1 = (h, g) ∧ e ≠ .AssertionFailure ∧
      e.is_runtime_error = false := by
  by_cases hv : (h.ports p).has_valid_object_id = true
  · cases ht : (h.ports p).gate_template_port with
    | none =>
      simp [Gate.add_port_traced, hv, GatePort.has_template_port, ht] at he ⊢
      subst he; exact ⟨by decide, rfl⟩
    | some tp =>
      by_cases ho : g.orientation = ORIENTATION.ORIENTATION_UNDEFINED
      · simp [Gate.add_port_traced, hv, GatePort.has_template_port, ht, Gate.has_orientation,
          ho] at he ⊢
        subst he; exact ⟨by decide, rfl⟩
      · rw [add_port_traced_ok ndebug h g p tp ho hv ht] at he
        cases he
  · simp [Gate.add_port_traced, hv] at he ⊢
    subst he; exact ⟨by decide, rfl⟩

theorem add_port_traced_agrees (ndebug : Bool) (h : Heap) (g : Gate) (p : Nat) :
    g.add_port ndebug h p
      = match g.add_port_traced ndebug h p with
        | (s, none) => .ok s
        | (_, some e) => .error e := by
  by_cases hv : (h.ports p).has_valid_object_id = true
  · cases ht : (h.ports p).gate_template_port with
    | none => simp [Gate.add_port, Gate.add_port_traced, hv, GatePort.has_template_port, ht]
    | some tp =>
      by_cases ho : g.orientation = ORIENTATION.ORIENTATION_UNDEFINED
      · simp [Gate.add_port, Gate.add_port_traced, hv, GatePort.has_template_port, ht,
          Gate.has_orientation, ho]
      · rw [add_port_traced_ok ndebug h g p tp ho hv ht, add_port_ok ndebug h g p tp ho hv ht]
  · simp [Gate.add_port, Gate.add_port_traced, hv]

/-- C13: whenever `add_port` or `remove_port` fails, the call ends in the
state in which it began: the gate's port set, the position of the port passed
in, the gate's template link and every template's reference count are as
before; and no call of `set_gate_template` or `remove_template` ends in an
error, so none changes a reference count in a call that ends in an error. -/
theorem raised_error_means_no_state_change (ndebug : Bool) (h : Heap) (g : Gate) :
    (∀ p e, g.add_port ndebug h p = .error e →
        (g.add_port_traced ndebug h p).2 = some e ∧
          (g.add_port_traced ndebug h p).1 = (h, g) ∧
          (g.add_port_traced ndebug h p).1.2.gate_ports = g.gate_ports ∧
          ((g.add_port_traced ndebug h p).1.1.ports p).x = (h.ports p).x ∧
          ((g.add_port_traced ndebug h p).1.1.ports p).y = (h.ports p).y ∧
          (g.add_port_traced ndebug h p).1.2.gate_template = g.gate_template ∧
          ∀ T, ((g.add_port_traced ndebug h p).1.1.templates T).reference_counter
            = (h.templates T).reference_counter) ∧
      (∀ p e, g.remove_port h p = .error e →
        (g.remove_port_traced h p).2 = some e ∧
          (g.remove_port_traced h p).1 = (h, g) ∧
          (g.remove_port_traced h p).1.2.gate_ports = g.gate_ports ∧
          ((g.remove_port_traced h p).1.1.ports p).x = (h.ports p).x ∧
          ((g.remove_port_traced h p).1.1.ports p).y = (h.ports p).y ∧
          (g.remove_port_traced h p).1.2.gate_template = g.gate_template ∧
          ∀ T, ((g.remove_port_traced h p).1.1.templates T).reference_counter
            = (h.templates T).reference_counter) ∧
      (∀ c e, (GateCall.traced ndebug (h, g) c).2 = some e →
        (GateCall.traced ndebug (h, g) c).1 = (h, g)) ∧
      (∀ T, (GateCall.traced ndebug (h, g) (.set_gate_template T)).2 = none) ∧
      (GateCall.traced ndebug (h, g) .remove_template).2 = none := by
  have hadd : ∀ p e, g.add_port ndebug h p = .error e →
      (g.add_port_traced ndebug h p).2 = some e := by
    intro p e he
    rw [add_port_traced_agrees] at he
    rcases htr : g.add_port_traced ndebug h p with ⟨s, o⟩
    rw [htr] at he
    cases o with
    | none => cases he
    | some e1 => cases he; rfl
  refine ⟨?_, ?_, ?_, fun _ => rfl, rfl⟩
  · intro p e he
    have h2 := hadd p e he
    have h1 := (add_port_traced_error ndebug h g p e h2).1
    refine ⟨h2, h1, ?_, ?_, ?_, ?_, ?_⟩ <;> simp [h1]
  · intro p e he
    have htr := ((remove_port_traced_agrees h g p).2.2 e).mp he
    refine ⟨?_, ?_, ?_, ?_, ?_, ?_, ?_⟩ <;> simp [htr]
  · intro c e he
    cases c with
    | set_gate_template t => cases he
    | remove_template => cases he
    | set_template_type_id id => cases he
    | add_port p => exact (add_port_traced_error ndebug h g p e he).1
    | remove_port p =>
      simp only [GateCall.traced] at he ⊢
      unfold Gate.remove_port_traced at he ⊢
      cases hc : port_set_contains h.ports p g.gate_ports
      · simp
      · simp [hc] at he
    | set_orientation o => cases he
    | clone_shallow => cases he

/-- C13 at two failing calls on the example gate: `add_port` with a port
without a valid object-id and `remove_port` with a port that is not in the
set both end in the state in which they began. -/
theorem raised_error_means_no_state_change_witness :
    (example_gate.add_port_traced false heap_invalid_port_id 0).1
        = (heap_invalid_port_id, example_gate) ∧
      (example_gate.remove_port_traced example_heap 0).1 = (example_heap, example_gate) :=
  ⟨((raised_error_means_no_state_change false heap_invalid_port_id example_gate).1 0
      (.InvalidObjectIDException "Error in Gate::add_port(). The port has no valid object ID.")
      rfl).2.1,
    ((raised_error_means_no_state_change false example_heap example_gate).2.1 0
      .CollectionLookupException rfl).2.1⟩

/-! ## `remove_template` twice -/

theorem heap_after_decrement_unlinked (h : Heap) (g : Gate) (hg : g.gate_template = none) :
    heap_after_decrement h g = h := by
  simp [heap_after_decrement, hg]

/-- C14: calling `remove_template` twice yields the same gate state and the
same heap, hence the same reference counts, as calling it once; on a gate
with no template link the heap, hence every reference count, is unchanged
and so are the gate's bounding box, object-id, name and (empty) template
link. -/
theorem remove_template_idempotent (h : Heap) (g : Gate) :
    (g.remove_template h).2.remove_template (g.remove_template h).1 = g.remove_template h ∧
      (∀ T, (((g.remove_template h).2.remove_template
          (g.remove_template h).1).1.templates T).reference_counter
        = ((g.remove_template h).1.templates T).reference_counter) ∧
      (g.gate_template = none →
        (g.remove_template h).1 = h ∧
          (∀ T, ((g.remove_template h).1.templates T).reference_counter
            = (h.templates T).reference_counter) ∧
          (g.remove_template h).2.gate_template = g.gate_template ∧
          (g.remove_template h).2.min_x = g.min_x ∧
          (g.remove_template h).2.max_x = g.max_x ∧
          (g.remove_template h).2.min_y = g.min_y ∧
          (g.remove_template h).2.max_y = g.max_y ∧
          (g.remove_template h).2.object_id = g.object_id ∧
          (g.remove_template h).2.name = g.name) := by
  have hlink : (g.remove_template h).2.gate_template = none := by
    rw [remove_template_gate]
  have htwice : (g.remove_template h).2.remove_template (g.remove_template h).1
      = g.remove_template h := by
    apply Prod.ext
    · rw [remove_template_heap, heap_after_decrement_unlinked _ _ hlink]
    · rw [remove_template_gate, remove_template_gate]
  refine ⟨htwice, ?_, ?_⟩
  · intro T; rw [htwice]
  · intro hg
    have hheap : (g.remove_template h).1 = h := by
      rw [remove_template_heap, heap_after_decrement_unlinked _ _ hg]
    refine ⟨hheap, ?_, ?_, ?_, ?_, ?_, ?_, ?_, ?_⟩
    · intro T; rw [hheap]
    · rw [hlink, hg]
    all_goals rw [remove_template_gate]

/-- C14 at the template-less example gate: `remove_template` leaves the heap
as it is. -/
theorem remove_template_idempotent_witness :
    (example_gate.remove_template example_heap).1 = example_heap :=
  ((remove_template_idempotent example_heap example_gate).2.2 rfl).1

/-! ## The cached type-id of an unlinked gate -/

/-- C17, as stated, fails: the shallow clone of the example gate linked to
the template with object-id 5 has no template link, and its cached type-id
is 5, not 0. -/
theorem clone_shallow_copies_type_id :
    example_linked.2.gate_template = some 0 ∧
      example_linked.2.clone_shallow.gate_template = none ∧
      example_linked.2.clone_shallow.get_template_type_id = 5 ∧
      example_linked.2.clone_shallow.get_template_type_id ≠ 0 := by
  have hl : example_linked.2.gate_template = some 0 :=
    set_gate_template_link example_heap example_gate 0
  have hid : example_linked.2.clone_shallow.get_template_type_id = 5 := by
    have := (set_gate_template_adopts example_heap example_gate 0 (by decide)).1
    simp only [Gate.clone_shallow, Gate.get_template_type_id, example_linked]
    rw [this]
    rfl
  refine ⟨hl, rfl, hid, ?_⟩
  rw [hid]; decide

/-- C17, amended: a gate has `template_type_id` 0 and no template link
immediately after either constructor and after `remove_template`; the result
of `clone_shallow` is a template-less gate with an empty port set and the
original's bounding box and orientation, whose `template_type_id` is the
original's (0 exactly when the original's is 0). -/
theorem type_id_of_unlinked_gate :
    (∀ a b c d o, (Gate.construct a b c d o).get_template_type_id = 0 ∧
        (Gate.construct a b c d o).gate_template = none) ∧
      (∀ bb o, (Gate.construct_from_bounding_box bb o).get_template_type_id = 0 ∧
        (Gate.construct_from_bounding_box bb o).gate_template = none) ∧
      (∀ (h : Heap) (g : Gate), (g.remove_template h).2.get_template_type_id = 0 ∧
        (g.remove_template h).2.gate_template = none) ∧
      (∀ g : Gate, g.clone_shallow.gate_template = none ∧
        g.clone_shallow.gate_ports = [] ∧
        g.clone_shallow.get_bounding_box = g.get_bounding_box ∧
        g.clone_shallow.orientation = g.orientation ∧
        g.clone_shallow.get_template_type_id = g.get_template_type_id) := by
  refine ⟨fun _ _ _ _ _ => ⟨rfl, rfl⟩, fun _ _ => ⟨rfl, rfl⟩, ?_, fun _ => ⟨rfl, rfl, rfl, rfl, rfl⟩⟩
  intro h g
  rw [remove_template_gate]
  exact ⟨rfl, rfl⟩

/-! ## The geometry helpers on an undefined orientation -/

/-- C19, as stated, fails: called directly on a gate with undefined
orientation in a build with assertions, the x helper ends at the assertion,
which is not the runtime error; so does the y helper. -/
theorem helper_trips_assertion_first :
    gate_without_orientation.get_relative_x_position_within_gate false 2
        = .error .AssertionFailure ∧
      gate_without_orientation.get_relative_y_position_within_gate false 3
        = .error .AssertionFailure ∧
      Exception.AssertionFailure.is_runtime_error = false := by
  refine ⟨rfl, rfl, rfl⟩

/-- C19, amended: `add_port` never fails with the runtime error and never
trips the assertion of the two geometry helpers, because the undefined
orientation is rejected before either helper is called; called directly on a
gate with undefined orientation, both helpers fail for every argument, with
the runtime error when assertions are compiled out and at the assertion
otherwise. -/
theorem geometry_helpers_on_undefined_orientation :
    (∀ (ndebug : Bool) (h : Heap) (g : Gate) (p : Nat) (e : Exception),
        g.add_port ndebug h p = .error e →
          e.is_runtime_error = false ∧ e ≠ .AssertionFailure) ∧
      (∀ (g : Gate) (r : ℚ), g.orientation = ORIENTATION.ORIENTATION_UNDEFINED →
        (∃ e, g.get_relative_x_position_within_gate true r = .error e ∧
            e.is_runtime_error = true) ∧
          (∃ e, g.get_relative_y_position_within_gate true r = .error e ∧
            e.is_runtime_error = true) ∧
          g.get_relative_x_position_within_gate false r = .error .AssertionFailure ∧
          g.get_relative_y_position_within_gate false r = .error .AssertionFailure) := by
  constructor
  · intro ndebug h g p e he
    rw [add_port_traced_agrees] at he
    rcases htr : g.add_port_traced ndebug h p with ⟨s, o⟩
    rw [htr] at he
    cases o with
    | none => cases he
    | some e1 =>
      cases he
      have := add_port_traced_error ndebug h g p e (by rw [htr])
      exact ⟨this.2.2, this.2.1⟩
  · intro g r ho
    refine ⟨⟨.DegateRuntimeException
        "Can't calculate a position for an undefined orientation", ?_, rfl⟩,
      ⟨.DegateRuntimeException
        "Can't calculate a position for an undefined orientation", ?_, rfl⟩, ?_, ?_⟩
    · simp [Gate.get_relative_x_position_within_gate, ho]
    · simp [Gate.get_relative_y_position_within_gate, ho]
    · simp [Gate.get_relative_x_position_within_gate, ho]
    · simp [Gate.get_relative_y_position_within_gate, ho]

/-- C19, amended, at the gate without orientation: `add_port` fails with the
logic error, not the runtime error, and with assertions compiled out the x
helper called directly fails with the runtime error. -/
theorem geometry_helpers_on_undefined_orientation_witness :
    (Exception.DegateLogicException
          "Error in Gate::add_port(). The gate has no defined orientation").is_runtime_error
        = false ∧
      (∃ e, gate_without_orientation.get_relative_x_position_within_gate true 2 = .error e ∧
        e.is_runtime_error = true) :=
  ⟨(geometry_helpers_on_undefined_orientation.1 false example_heap gate_without_orientation 0
      _ rfl).1,
    (geometry_helpers_on_undefined_orientation.2 gate_without_orientation 2 rfl).1⟩

/-! ## Frame of `set_gate_template` -/

theorem set_gate_template_heap_ports (h : Heap) (g : Gate) (T : Nat) :
    (g.set_gate_template h T).1.ports = h.ports ∧
      (g.set_gate_template h T).1.template_ports = h.template_ports := by
  rw [set_gate_template_heap]
  unfold heap_after_decrement
  cases hg : g.gate_template <;> split <;> simp [Heap.set_template]

/-- C20: for every gate and every template T, `set_gate_template(T)` leaves
the gate's port set unchanged (the same ports, and in the heap the same port
objects, so every position and template-port link, and the same template-port
objects), and leaves the orientation and the minimum corner of the bounding
box unchanged; ports added before the call are therefore still in the gate
after relinking to a different template. -/
theorem set_gate_template_keeps_ports (h : Heap) (g : Gate) (T : Nat) :
    (g.set_gate_template h T).2.gate_ports = g.gate_ports ∧
      (∀ p, port_set_contains (g.set_gate_template h T).1.ports p
          (g.set_gate_template h T).2.gate_ports
        = port_set_contains h.ports p g.gate_ports) ∧
      (∀ p, (g.set_gate_template h T).1.ports p = h.ports p) ∧
      (∀ p, ((g.set_gate_template h T).1.ports p).x = (h.ports p).x ∧
        ((g.set_gate_template h T).1.ports p).y = (h.ports p).y ∧
        ((g.set_gate_template h T).1.ports p).gate_template_port
          = (h.ports p).gate_template_port) ∧
      (∀ t, (g.set_gate_template h T).1.template_ports t = h.template_ports t) ∧
      (g.set_gate_template h T).2.orientation = g.orientation ∧
      (g.set_gate_template h T).2.min_x = g.min_x ∧
      (g.set_gate_template h T).2.min_y = g.min_y := by
  obtain ⟨f1, f2, f3, f4, _, _⟩ := set_gate_template_frame h g T
  obtain ⟨p1, p2⟩ := set_gate_template_heap_ports h g T
  refine ⟨f1, ?_, ?_, ?_, ?_, f2, f3, f4⟩
  · intro p; rw [f1, p1]
  · intro p; rw [p1]
  · intro p; rw [p1]; exact ⟨rfl, rfl, rfl⟩
  · intro t; rw [p2]

/-! ## The descriptive identifier -/

theorem lowest_marker_append_plain (a l : List Char) (ha : '%' ∉ a) :
    QString.lowest_marker (a ++ l) = QString.lowest_marker l := by
  induction a with
  | nil => rfl
  | cons c cs ih =>
    have hc : c ≠ '%' := fun hEq => ha (by rw [hEq]; exact List.mem_cons_self _ _)
    have hcs : '%' ∉ cs := fun hm => ha (List.mem_cons_of_mem _ hm)
    simp only [List.cons_append, QString.lowest_marker, hc, if_false]
    exact ih hcs

theorem replace_marker_append_plain (n : Nat) (x a l : List Char) (ha : '%' ∉ a) :
    QString.replace_marker n x 0 (a ++ l) = a ++ QString.replace_marker n x 0 l := by
  induction a with
  | nil => rfl
  | cons c cs ih =>
    have hc : c ≠ '%' := fun hEq => ha (by rw [hEq]; exact List.mem_cons_self _ _)
    have hcs : '%' ∉ cs := fun hm => ha (List.mem_cons_of_mem _ hm)
    simp only [List.cons_append, QString.replace_marker, hc, if_false]
    exact congrArg (List.cons c) (ih hcs)

theorem arg_name_and_template (a b : List Char) (ha : '%' ∉ a) :
    QString.arg (QString.arg ['%', '1', ' ', ':', ' ', '%', '2'] a) b
      = a ++ ' ' :: ':' :: ' ' :: b := by
  have h1 : QString.arg ['%', '1', ' ', ':', ' ', '%', '2'] a
      = a ++ [' ', ':', ' ', '%', '2'] := by
    simp [QString.arg, QString.lowest_marker, QString.replace_marker, QString.place_marker]
  rw [h1]
  unfold QString.arg
  rw [lowest_marker_append_plain a _ ha]
  have h2 : QString.lowest_marker [' ', ':', ' ', '%', '2'] = some 2 := by decide
  rw [h2]
  simp only []
  rw [replace_marker_append_plain 2 b a _ ha]
  simp [QString.replace_marker, QString.place_marker]

theorem arg_name_and_number (a b : List Char) (ha : '%' ∉ a) :
    QString.arg (QString.arg ['%', '1', ' ', '(', '%', '2', ')'] a) b
      = a ++ ' ' :: '(' :: (b ++ [')']) := by
  have h1 : QString.arg ['%', '1', ' ', '(', '%', '2', ')'] a
      = a ++ [' ', '(', '%', '2', ')'] := by
    simp [QString.arg, QString.lowest_marker, QString.replace_marker, QString.place_marker]
  rw [h1]
  unfold QString.arg
  rw [lowest_marker_append_plain a _ ha]
  have h2 : QString.lowest_marker [' ', '(', '%', '2', ')'] = some 2 := by decide
  rw [h2]
  simp only []
  rw [replace_marker_append_plain 2 b a _ ha]
  simp [QString.replace_marker, QString.place_marker]

theorem arg_number_only (b : List Char) :
    QString.arg ['(', '%', '1', ')'] b = '(' :: (b ++ [')']) := by
  simp [QString.arg, QString.lowest_marker, QString.replace_marker, QString.place_marker]

/-- The descriptive identifier of a gate whose name and whose template's
name hold no `%`: the four forms of the display string. -/
theorem get_descriptive_identifier_plain (h : Heap) (g : Gate)
    (hname : '%' ∉ g.name.toList)
    (htn : ∀ t, g.gate_template = some t → '%' ∉ (h.templates t).name.toList) :
    g.get_descriptive_identifier h
      = match g.gate_template with
        | some t =>
          if g.has_name then g.name ++ " : " ++ (h.templates t).name
          else (h.templates t).name ++ " (" ++ Nat.repr g.object_id ++ ")"
        | none =>
          if g.has_name then g.name ++ " (" ++ Nat.repr g.object_id ++ ")"
          else "(" ++ Nat.repr g.object_id ++ ")" := by
  have hname2 : '%' ∉ g.name.data := hname
  unfold Gate.get_descriptive_identifier
  cases hg : g.gate_template with
  | none =>
    cases hn : g.has_name
    · simp only [Bool.not_false, if_true, Bool.false_eq_true, if_false]
      apply String.ext
      simp [QString.arg_number, arg_number_only]
    · simp only [Bool.not_true, Bool.false_eq_true, if_false, if_true]
      apply String.ext
      simp [QString.arg_number, arg_name_and_number _ _ hname2]
  | some t =>
    have htn2 : '%' ∉ (h.templates t).name.data := htn t hg
    cases hn : g.has_name
    · simp only [Bool.false_eq_true, if_false]
      apply String.ext
      simp [QString.arg_number, arg_name_and_number _ _ htn2]
    · simp only [if_true]
      apply String.ext
      simp [arg_name_and_template _ _ hname2]

/-- C18 on the code: the gate has the name "%1", the object-id 42 and is
linked to the template named "NAND".  The identifier returned is "NAND : %2":
the second `arg` replaces the marker inside the inserted name, so neither
"%1 : NAND" is returned nor does the name appear in the result; a gate named
"U7" gets "U7 : NAND". -/
theorem descriptive_identifier_loses_marker_name :
    gate_named_like_a_marker.has_name = true ∧
      gate_named_like_a_marker.gate_template = some 0 ∧
      gate_named_like_a_marker.get_descriptive_identifier example_heap = "NAND : %2" ∧
      gate_named_like_a_marker.get_descriptive_identifier example_heap
        ≠ gate_named_like_a_marker.name ++ " : " ++ (example_heap.templates 0).name ∧
      gate_named_plainly.get_descriptive_identifier example_heap = "U7 : NAND" := by
  refine ⟨rfl, rfl, rfl, by decide, rfl⟩

/-! ## Deep copy -/

theorem template_port_clone_deep_frame (c : CloneContext) (tp : Nat) :
    (GateTemplatePort.clone_deep c tp).1.heap.templates = c.heap.templates ∧
      (GateTemplatePort.clone_deep c tp).1.heap.ports = c.heap.ports ∧
      (GateTemplatePort.clone_deep c tp).1.oldnew_templates = c.oldnew_templates ∧
      (GateTemplatePort.clone_deep c tp).1.oldnew_ports = c.oldnew_ports ∧
      c.next ≤ (GateTemplatePort.clone_deep c tp).1.next := by
  unfold GateTemplatePort.clone_deep
  cases oldnew_find c.oldnew_template_ports tp with
  | none => simp [Heap.set_template_port]
  | some a => simp

theorem port_clone_deep_found (c : CloneContext) (p a : Nat)
    (hf : oldnew_find c.oldnew_ports p = some a) :
    GatePort.clone_deep c p = (c, a) := by
  simp [GatePort.clone_deep, hf]

theorem port_clone_deep_new (c : CloneContext) (p : Nat)
    (hf : oldnew_find c.oldnew_ports p = none) :
    (GatePort.clone_deep c p).2 = c.next ∧
      (GatePort.clone_deep c p).1.oldnew_ports = (p, c.next) :: c.oldnew_ports ∧
      c.next < (GatePort.clone_deep c p).1.next ∧
      (∀ x, x ≠ c.next → (GatePort.clone_deep c p).1.heap.ports x = c.heap.ports x) ∧
      ((GatePort.clone_deep c p).1.heap.ports c.next).object_id = (c.heap.ports p).object_id ∧
      ((GatePort.clone_deep c p).1.heap.ports c.next).x = (c.heap.ports p).x ∧
      ((GatePort.clone_deep c p).1.heap.ports c.next).y = (c.heap.ports p).y := by
  unfold GatePort.clone_deep
  simp only [hf]
  cases htp : (c.heap.ports p).gate_template_port with
  | none =>
    refine ⟨rfl, rfl, Nat.lt_succ_self _, ?_, ?_, ?_, ?_⟩
    · intro x hx; simp [GatePort.register_clone, Heap.set_port, Function.update, hx]
    · simp [GatePort.register_clone, Heap.set_port, GatePort.clone_shallow]
    · simp [GatePort.register_clone, Heap.set_port, GatePort.clone_shallow]
    · simp [GatePort.register_clone, Heap.set_port, GatePort.clone_shallow]
  | some tp =>
    obtain ⟨_, f2, _, f4, f5⟩ :=
      template_port_clone_deep_frame (GatePort.register_clone c p) tp
    refine ⟨rfl, ?_, ?_, ?_, ?_, ?_, ?_⟩
    · simp only [GatePort.bind_template_port, CloneContext.set_heap]
      rw [f4]; rfl
    · simp only [GatePort.bind_template_port, CloneContext.set_heap]
      exact Nat.lt_of_lt_of_le (Nat.lt_succ_self _) f5
    · intro x hx
      simp only [GatePort.bind_template_port, CloneContext.set_heap, Heap.set_port]
      rw [Function.update_noteq hx, f2]
      simp [GatePort.register_clone, Heap.set_port, Function.update, hx]
    · simp only [GatePort.bind_template_port, CloneContext.set_heap, Heap.set_port]
      rw [Function.update_same, f2]
      simp [GatePort.register_clone, Heap.set_port, GatePort.clone_shallow]
    · simp only [GatePort.bind_template_port, CloneContext.set_heap, Heap.set_port]
      rw [Function.update_same, f2]
      simp [GatePort.register_clone, Heap.set_port, GatePort.clone_shallow]
    · simp only [GatePort.bind_template_port, CloneContext.set_heap, Heap.set_port]
      rw [Function.update_same, f2]
      simp [GatePort.register_clone, Heap.set_port, GatePort.clone_shallow]

theorem port_clone_deep_frame (c : CloneContext) (p : Nat) :
    (GatePort.clone_deep c p).1.heap.templates = c.heap.templates ∧
      (GatePort.clone_deep c p).1.oldnew_templates = c.oldnew_templates ∧
      c.next ≤ (GatePort.clone_deep c p).1.next := by
  unfold GatePort.clone_deep
  cases hf : oldnew_find c.oldnew_ports p with
  | some a => simp
  | none =>
    simp only []
    cases htp : (c.heap.ports p).gate_template_port with
    | none => simp [GatePort.register_clone, Heap.set_port]
    | some tp =>
      obtain ⟨f1, _, f3, _, f5⟩ :=
        template_port_clone_deep_frame (GatePort.register_clone c p) tp
      simp only [GatePort.bind_template_port, CloneContext.set_heap, Heap.set_port]
      refine ⟨?_, ?_, ?_⟩
      · rw [f1]; rfl
      · rw [f3]; rfl
      · exact Nat.le_trans (Nat.le_succ _) f5

theorem template_clone_deep_found (c : CloneContext) (t a : Nat)
    (hf : oldnew_find c.oldnew_templates t = some a) :
    GateTemplate.clone_deep c t = (c, a) := by
  simp [GateTemplate.clone_deep, hf]

theorem template_clone_deep_new (c : CloneContext) (t : Nat)
    (hf : oldnew_find c.oldnew_templates t = none) :
    GateTemplate.clone_deep c t
      = ({ c with heap := c.heap.set_template c.next (c.heap.templates t),
                  oldnew_templates := (t, c.next) :: c.oldnew_templates,
                  next := c.next + 1 }, c.next) := by
  simp [GateTemplate.clone_deep, hf]

theorem oldnew_find_cons (k v : Nat) (m : List (Nat × Nat)) (a : Nat) :
    oldnew_find ((k, v) :: m) a = if k = a then some v else oldnew_find m a := rfl

theorem template_invariant_start (h : Heap) (n : Nat) :
    TemplateCloneInvariant h n (CloneContext.start h n) where
  next_le := Nat.le_refl _
  templates_below := fun _ _ => rfl
  templates_map := by intro t a hf; cases hf
  templates_injective := by intro t1 t2 a hf; cases hf

theorem port_invariant_start (h : Heap) (n : Nat) :
    PortCloneInvariant h n (CloneContext.start h n) where
  next_le := Nat.le_refl _
  ports_below := fun _ _ => rfl
  ports_map := by intro d a hf; cases hf

theorem template_invariant_port_clone (h0 : Heap) (n0 : Nat) (c : CloneContext) (p : Nat)
    (hI : TemplateCloneInvariant h0 n0 c) :
    TemplateCloneInvariant h0 n0 (GatePort.clone_deep c p).1 := by
  obtain ⟨f1, f2, f3⟩ := port_clone_deep_frame c p
  constructor
  · exact Nat.le_trans hI.next_le f3
  · intro U hU; rw [f1]; exact hI.templates_below U hU
  · intro t a hta
    rw [f2] at hta
    obtain ⟨m1, m2, m3⟩ := hI.templates_map t a hta
    exact ⟨m1, Nat.lt_of_lt_of_le m2 f3, by rw [f1]; exact m3⟩
  · intro t1 t2 a h1 h2
    rw [f2] at h1 h2
    exact hI.templates_injective t1 t2 a h1 h2

theorem port_invariant_port_clone (h0 : Heap) (n0 : Nat) (c : CloneContext) (p : Nat)
    (hI : PortCloneInvariant h0 n0 c) (hp : p < n0) :
    PortCloneInvariant h0 n0 (GatePort.clone_deep c p).1 ∧
      oldnew_find (GatePort.clone_deep c p).1.oldnew_ports p
        = some (GatePort.clone_deep c p).2 ∧
      (∀ d a, oldnew_find c.oldnew_ports d = some a →
        oldnew_find (GatePort.clone_deep c p).1.oldnew_ports d = some a) ∧
      (∀ x, x < c.next → (GatePort.clone_deep c p).1.heap.ports x = c.heap.ports x) := by
  cases hf : oldnew_find c.oldnew_ports p with
  | some a =>
    rw [port_clone_deep_found c p a hf]
    exact ⟨hI, hf, fun _ _ hd => hd, fun _ _ => rfl⟩
  | none =>
    obtain ⟨n1, n2, n3, n4, n5, n6, n7⟩ := port_clone_deep_new c p hf
    obtain ⟨_, _, f3⟩ := port_clone_deep_frame c p
    have hbelow : ∀ x, x < c.next → (GatePort.clone_deep c p).1.heap.ports x = c.heap.ports x :=
      fun x hx => n4 x (Nat.ne_of_lt hx)
    refine ⟨?_, ?_, ?_, hbelow⟩
    · constructor
      · exact Nat.le_trans hI.next_le f3
      · intro d hd
        rw [hbelow d (Nat.lt_of_lt_of_le hd hI.next_le)]
        exact hI.ports_below d hd
      · intro d a hda
        rw [n2, oldnew_find_cons] at hda
        by_cases hpd : p = d
        · rw [if_pos hpd] at hda
          cases hda
          subst hpd
          have hb := hI.ports_below p hp
          refine ⟨hI.next_le, n3, ?_, ?_, ?_⟩
          · rw [n5, hb]
          · rw [n6, hb]
          · rw [n7, hb]
        · rw [if_neg hpd] at hda
          obtain ⟨m1, m2, m3, m4, m5⟩ := hI.ports_map d a hda
          rw [hbelow a m2]
          exact ⟨m1, Nat.lt_trans m2 n3, m3, m4, m5⟩
    · rw [n1, n2, oldnew_find_cons, if_pos rfl]
    · intro d a hda
      rw [n2, oldnew_find_cons]
      by_cases hpd : p = d
      · subst hpd; rw [hf] at hda; cases hda
      · rw [if_neg hpd]; exact hda

theorem template_clone_deep_frame (c : CloneContext) (t : Nat) :
    (GateTemplate.clone_deep c t).1.heap.ports = c.heap.ports ∧
      (GateTemplate.clone_deep c t).1.oldnew_ports = c.oldnew_ports ∧
      c.next ≤ (GateTemplate.clone_deep c t).1.next := by
  cases hf : oldnew_find c.oldnew_templates t with
  | some a =>
    rw [template_clone_deep_found c t a hf]
    exact ⟨rfl, rfl, Nat.le_refl _⟩
  | none =>
    rw [template_clone_deep_new c t hf]
    exact ⟨rfl, rfl, Nat.le_succ _⟩

theorem port_invariant_template_clone (h0 : Heap) (n0 : Nat) (c : CloneContext) (t : Nat)
    (hI : PortCloneInvariant h0 n0 c) :
    PortCloneInvariant h0 n0 (GateTemplate.clone_deep c t).1 := by
  obtain ⟨f1, f2, f3⟩ := template_clone_deep_frame c t
  constructor
  · exact Nat.le_trans hI.next_le f3
  · intro d hd; rw [f1]; exact hI.ports_below d hd
  · intro d a hda
    rw [f2] at hda
    obtain ⟨m1, m2, m3, m4, m5⟩ := hI.ports_map d a hda
    rw [f1]
    exact ⟨m1, Nat.lt_of_lt_of_le m2 f3, m3, m4, m5⟩

theorem template_invariant_template_clone (h0 : Heap) (n0 : Nat) (c : CloneContext) (t : Nat)
    (hI : TemplateCloneInvariant h0 n0 c) (ht : t < n0) :
    TemplateCloneInvariant h0 n0 (GateTemplate.clone_deep c t).1 ∧
      oldnew_find (GateTemplate.clone_deep c t).1.oldnew_templates t
        = some (GateTemplate.clone_deep c t).2 ∧
      (∀ u a, oldnew_find c.oldnew_templates u = some a →
        oldnew_find (GateTemplate.clone_deep c t).1.oldnew_templates u = some a) := by
  cases hf : oldnew_find c.oldnew_templates t with
  | some a =>
    rw [template_clone_deep_found c t a hf]
    exact ⟨hI, hf, fun _ _ hd => hd⟩
  | none =>
    rw [template_clone_deep_new c t hf]
    refine ⟨?_, ?_, ?_⟩
    · constructor
      · exact Nat.le_trans hI.next_le (Nat.le_succ _)
      · intro U hU
        have hne : U ≠ c.next := Nat.ne_of_lt (Nat.lt_of_lt_of_le hU hI.next_le)
        simp only [Heap.set_template, Function.update_noteq hne]
        exact hI.templates_below U hU
      · intro u a hua
        simp only [oldnew_find_cons] at hua
        by_cases htu : t = u
        · rw [if_pos htu] at hua
          cases hua
          subst htu
          refine ⟨hI.next_le, Nat.lt_succ_self _, ?_⟩
          simp only [Heap.set_template, Function.update_same]
          exact hI.templates_below t ht
        · rw [if_neg htu] at hua
          obtain ⟨m1, m2, m3⟩ := hI.templates_map u a hua
          have hne : a ≠ c.next := Nat.ne_of_lt m2
          refine ⟨m1, Nat.lt_succ_of_lt m2, ?_⟩
          simp only [Heap.set_template, Function.update_noteq hne]
          exact m3
      · intro t1 t2 a h1 h2
        simp only [oldnew_find_cons] at h1 h2
        by_cases e1 : t = t1
        · rw [if_pos e1] at h1
          cases h1
          by_cases e2 : t = t2
          · rw [← e1, ← e2]
          · rw [if_neg e2] at h2
            exact absurd (hI.templates_map t2 _ h2).2.1 (Nat.lt_irrefl _)
        · rw [if_neg e1] at h1
          by_cases e2 : t = t2
          · rw [if_pos e2] at h2
            cases h2
            exact absurd (hI.templates_map t1 _ h1).2.1 (Nat.lt_irrefl _)
          · rw [if_neg e2] at h2
            exact hI.templates_injective t1 t2 a h1 h2
    · simp [oldnew_find_cons]
    · intro u a hua
      simp only [oldnew_find_cons]
      by_cases htu : t = u
      · subst htu; rw [hf] at hua; cases hua
      · rw [if_neg htu]; exact hua

theorem port_set_insert_fresh (ports : Nat → GatePort) (p : Nat) (l : List Nat)
    (hfresh : ∀ q ∈ l, (ports q).object_id ≠ (ports p).object_id) :
    (port_set_insert ports p l).length = l.length + 1 ∧
      ∀ x, x ∈ port_set_insert ports p l ↔ x = p ∨ x ∈ l := by
  induction l with
  | nil => simp [port_set_insert]
  | cons q qs ih =>
    have hq := hfresh q (List.mem_cons_self _ _)
    obtain ⟨ih1, ih2⟩ := ih (fun r hr => hfresh r (List.mem_cons_of_mem _ hr))
    unfold port_set_insert
    by_cases h1 : (ports p).object_id < (ports q).object_id
    · simp [h1]
    · by_cases h2 : (ports q).object_id < (ports p).object_id
      · simp only [h1, h2, if_true, if_false, List.length_cons, ih1, List.mem_cons, ih2]
        refine ⟨trivial, ?_⟩
        intro x
        constructor
        · rintro (hx | hx | hx)
          · exact Or.inr (Or.inl hx)
          · exact Or.inl hx
          · exact Or.inr (Or.inr hx)
        · rintro (hx | hx | hx)
          · exact Or.inr (Or.inl hx)
          · exact Or.inl hx
          · exact Or.inr (Or.inr hx)
      · exact absurd (Nat.le_antisymm (Nat.le_of_not_lt h1) (Nat.le_of_not_lt h2)) hq

theorem clone_ports_loop_frame :
    ∀ (ds : List Nat) (acc : CloneContext × Gate),
      (clone_ports_loop ds acc).1.heap.templates = acc.1.heap.templates ∧
        (clone_ports_loop ds acc).1.oldnew_templates = acc.1.oldnew_templates ∧
        acc.1.next ≤ (clone_ports_loop ds acc).1.next ∧
        (clone_ports_loop ds acc).2.gate_template = acc.2.gate_template ∧
        (clone_ports_loop ds acc).2.orientation = acc.2.orientation ∧
        (clone_ports_loop ds acc).2.get_bounding_box = acc.2.get_bounding_box ∧
        (clone_ports_loop ds acc).2.template_type_id = acc.2.template_type_id := by
  intro ds
  induction ds with
  | nil => intro acc; exact ⟨rfl, rfl, Nat.le_refl _, rfl, rfl, rfl, rfl⟩
  | cons d ds ih =>
    intro acc
    obtain ⟨i1, i2, i3, i4, i5, i6, i7⟩ := ih
      ((GatePort.clone_deep acc.1 d).1,
        acc.2.insert_port (GatePort.clone_deep acc.1 d).1.heap (GatePort.clone_deep acc.1 d).2)
    obtain ⟨f1, f2, f3⟩ := port_clone_deep_frame acc.1 d
    simp only [clone_ports_loop]
    refine ⟨?_, ?_, ?_, ?_, ?_, ?_, ?_⟩
    · rw [i1]; exact f1
    · rw [i2]; exact f2
    · exact Nat.le_trans f3 i3
    · rw [i4]; rfl
    · rw [i5]; rfl
    · rw [i6]; rfl
    · rw [i7]; rfl

theorem clone_ports_loop_template_invariant (h0 : Heap) (n0 : Nat) :
    ∀ (ds : List Nat) (acc : CloneContext × Gate),
      TemplateCloneInvariant h0 n0 acc.1 →
        TemplateCloneInvariant h0 n0 (clone_ports_loop ds acc).1 := by
  intro ds
  induction ds with
  | nil => intro acc hI; exact hI
  | cons d ds ih =>
    intro acc hI
    simp only [clone_ports_loop]
    exact ih _ (template_invariant_port_clone h0 n0 acc.1 d hI)

theorem clone_ports_loop_ports (h0 : Heap) (n0 : Nat) :
    ∀ (ds : List Nat) (c : CloneContext) (g : Gate),
      PortCloneInvariant h0 n0 c →
      (∀ d ∈ ds, d < n0) →
      port_set_unique h0.ports ds →
      (∀ x ∈ g.gate_ports, x < c.next ∧
        ∀ d ∈ ds, (c.heap.ports x).object_id ≠ (h0.ports d).object_id) →
      PortCloneInvariant h0 n0 (clone_ports_loop ds (c, g)).1 ∧
        (∀ d a, oldnew_find c.oldnew_ports d = some a →
          oldnew_find (clone_ports_loop ds (c, g)).1.oldnew_ports d = some a) ∧
        (clone_ports_loop ds (c, g)).2.gate_ports.length = g.gate_ports.length + ds.length ∧
        (∀ x, x ∈ (clone_ports_loop ds (c, g)).2.gate_ports ↔
          (x ∈ g.gate_ports ∨
            ∃ d ∈ ds, oldnew_find (clone_ports_loop ds (c, g)).1.oldnew_ports d = some x)) ∧
        (∀ d ∈ ds, ∃ a, oldnew_find (clone_ports_loop ds (c, g)).1.oldnew_ports d = some a) := by
  intro ds
  induction ds with
  | nil =>
    intro c g hI _ _ _
    refine ⟨hI, fun _ _ hd => hd, rfl, ?_, ?_⟩
    · intro x
      simp [clone_ports_loop]
    · intro d hd; cases hd
  | cons d ds ih =>
    intro c g hI hlt hu hg
    obtain ⟨hI1, hfind, hmono, hbelow⟩ :=
      port_invariant_port_clone h0 n0 c d hI (hlt d (List.mem_cons_self _ _))
    obtain ⟨_, _, hnext⟩ := port_clone_deep_frame c d
    obtain ⟨_, ha_lt, ha_key, _, _⟩ := hI1.ports_map d _ hfind
    have hu2 := List.pairwise_cons.mp hu
    have hfresh : ∀ q ∈ g.gate_ports,
        ((GatePort.clone_deep c d).1.heap.ports q).object_id
          ≠ ((GatePort.clone_deep c d).1.heap.ports (GatePort.clone_deep c d).2).object_id := by
      intro q hq
      rw [hbelow q (hg q hq).1, ha_key]
      exact (hg q hq).2 d (List.mem_cons_self _ _)
    obtain ⟨hlen, hmem⟩ := port_set_insert_fresh (GatePort.clone_deep c d).1.heap.ports
      (GatePort.clone_deep c d).2 g.gate_ports hfresh
    have hg1 : ∀ x ∈ (g.insert_port (GatePort.clone_deep c d).1.heap
        (GatePort.clone_deep c d).2).gate_ports,
        x < (GatePort.clone_deep c d).1.next ∧
          ∀ d' ∈ ds, ((GatePort.clone_deep c d).1.heap.ports x).object_id
            ≠ (h0.ports d').object_id := by
      intro x hx
      rcases (hmem x).mp hx with hxa | hxg
      · subst hxa
        refine ⟨ha_lt, ?_⟩
        intro d' hd'
        rw [ha_key]
        exact hu2.1 d' hd'
      · refine ⟨Nat.lt_of_lt_of_le (hg x hxg).1 hnext, ?_⟩
        intro d' hd'
        rw [hbelow x (hg x hxg).1]
        exact (hg x hxg).2 d' (List.mem_cons_of_mem _ hd')
    obtain ⟨r1, r2, r3, r4, r5⟩ := ih (GatePort.clone_deep c d).1
      (g.insert_port (GatePort.clone_deep c d).1.heap (GatePort.clone_deep c d).2)
      hI1 (fun d' hd' => hlt d' (List.mem_cons_of_mem _ hd')) hu2.2 hg1
    simp only [clone_ports_loop]
    refine ⟨r1, fun d' a hd' => r2 d' a (hmono d' a hd'), ?_, ?_, ?_⟩
    rotate_left 2
    · intro d' hd'
      rcases List.mem_cons.mp hd' with hEq | hmem'
      · subst hEq; exact ⟨_, r2 d' _ hfind⟩
      · exact r5 d' hmem'
    · rw [r3]
      simp only [Gate.insert_port, hlen, List.length_cons]
      omega
    · intro x
      rw [r4]
      constructor
      · rintro (hx | ⟨d', hd', hf'⟩)
        · rcases (hmem x).mp hx with hxa | hxg
          · exact Or.inr ⟨d, List.mem_cons_self _ _, by rw [hxa]; exact r2 d _ hfind⟩
          · exact Or.inl hxg
        · exact Or.inr ⟨d', List.mem_cons_of_mem _ hd', hf'⟩
      · rintro (hx | ⟨d', hd', hf'⟩)
        · exact Or.inl ((hmem x).mpr (Or.inr hx))
        · rcases List.mem_cons.mp hd' with hEq | hmem'
          · subst hEq
            have := r2 d' _ hfind
            rw [this] at hf'
            cases hf'
            exact Or.inl ((hmem _).mpr (Or.inl rfl))
          · exact Or.inr ⟨d', hmem', hf'⟩

theorem clone_template_step_spec (h0 : Heap) (n0 : Nat) (c : CloneContext) (g dest : Gate)
    (hI : TemplateCloneInvariant h0 n0 c)
    (hT : ∀ T, g.gate_template = some T → T < n0) :
    TemplateCloneInvariant h0 n0 (clone_template_step g dest c).1 ∧
      (∀ u a, oldnew_find c.oldnew_templates u = some a →
        oldnew_find (clone_template_step g dest c).1.oldnew_templates u = some a) ∧
      (∀ T, g.gate_template = some T →
        (clone_template_step g dest c).2.gate_template
          = oldnew_find (clone_template_step g dest c).1.oldnew_templates T ∧
        ∃ a, oldnew_find (clone_template_step g dest c).1.oldnew_templates T = some a) ∧
      (g.gate_template = none →
        (clone_template_step g dest c).2.gate_template = dest.gate_template) ∧
      (clone_template_step g dest c).1.heap.ports = c.heap.ports ∧
      (clone_template_step g dest c).1.oldnew_ports = c.oldnew_ports ∧
      c.next ≤ (clone_template_step g dest c).1.next ∧
      (clone_template_step g dest c).2.gate_ports = dest.gate_ports ∧
      (clone_template_step g dest c).2.orientation = dest.orientation ∧
      (clone_template_step g dest c).2.get_bounding_box = g.get_bounding_box ∧
      (clone_template_step g dest c).2.template_type_id = dest.template_type_id := by
  unfold clone_template_step
  cases hg : g.gate_template with
  | none =>
    refine ⟨hI, fun _ _ hd => hd, ?_, fun _ => rfl, rfl, rfl, Nat.le_refl _, rfl, rfl, rfl, rfl⟩
    intro T hT2; cases hT2
  | some t =>
    obtain ⟨i1, i2, i3⟩ := template_invariant_template_clone h0 n0 c t hI (hT t hg)
    obtain ⟨f1, f2, f3⟩ := template_clone_deep_frame c t
    refine ⟨i1, i3, ?_, ?_, f1, f2, f3, rfl, rfl, rfl, rfl⟩
    · intro T hT2
      cases hT2
      exact ⟨by rw [i2]; rfl, _, i2⟩
    · intro hno; cases hno

theorem gate_clone_deep_templates (h0 : Heap) (n0 : Nat) (c : CloneContext) (g : Gate)
    (hI : TemplateCloneInvariant h0 n0 c)
    (hT : ∀ T, g.gate_template = some T → T < n0) :
    TemplateCloneInvariant h0 n0 (g.clone_deep c).1 ∧
      (∀ u a, oldnew_find c.oldnew_templates u = some a →
        oldnew_find (g.clone_deep c).1.oldnew_templates u = some a) ∧
      (∀ T, g.gate_template = some T →
        (g.clone_deep c).2.gate_template = oldnew_find (g.clone_deep c).1.oldnew_templates T ∧
        ∃ a, oldnew_find (g.clone_deep c).1.oldnew_templates T = some a) ∧
      (g.gate_template = none → (g.clone_deep c).2.gate_template = none) ∧
      (g.clone_deep c).2.orientation = g.orientation ∧
      (g.clone_deep c).2.get_bounding_box = g.get_bounding_box ∧
      (g.clone_deep c).2.template_type_id = g.template_type_id := by
  obtain ⟨s1, s2, s3, s4, _, _, _, _, s9, s10, s11⟩ :=
    clone_template_step_spec h0 n0 c g g.clone_shallow hI hT
  obtain ⟨l1, l2, _, l4, l5, l6, l7⟩ :=
    clone_ports_loop_frame g.gate_ports (clone_template_step g g.clone_shallow c)
  have hTI := clone_ports_loop_template_invariant h0 n0 g.gate_ports
    (clone_template_step g g.clone_shallow c) s1
  unfold Gate.clone_deep Gate.clone_deep_into
  refine ⟨hTI, ?_, ?_, ?_, ?_, ?_, ?_⟩
  · intro u a hua; rw [l2]; exact s2 u a hua
  · intro T hgT
    rw [l2, l4]
    exact s3 T hgT
  · intro hno; rw [l4]; exact s4 hno
  · rw [l5, s9]; rfl
  · rw [l6, s10]
  · rw [l7, s11]; rfl

theorem gate_clone_deep_ports (h0 : Heap) (n0 : Nat) (c : CloneContext) (g : Gate)
    (hI : PortCloneInvariant h0 n0 c)
    (hlt : ∀ d ∈ g.gate_ports, d < n0)
    (hu : port_set_unique h0.ports g.gate_ports) :
    PortCloneInvariant h0 n0 (g.clone_deep c).1 ∧
      (∀ d a, oldnew_find c.oldnew_ports d = some a →
        oldnew_find (g.clone_deep c).1.oldnew_ports d = some a) ∧
      (g.clone_deep c).2.gate_ports.length = g.gate_ports.length ∧
      (∀ x, x ∈ (g.clone_deep c).2.gate_ports ↔
        ∃ d ∈ g.gate_ports, oldnew_find (g.clone_deep c).1.oldnew_ports d = some x) ∧
      (∀ d ∈ g.gate_ports, ∃ a, oldnew_find (g.clone_deep c).1.oldnew_ports d = some a) := by
  have hstep : (clone_template_step g g.clone_shallow c).1.heap.ports = c.heap.ports ∧
      (clone_template_step g g.clone_shallow c).1.oldnew_ports = c.oldnew_ports ∧
      (clone_template_step g g.clone_shallow c).2.gate_ports = [] ∧
      PortCloneInvariant h0 n0 (clone_template_step g g.clone_shallow c).1 := by
    unfold clone_template_step
    cases hg : g.gate_template with
    | none => exact ⟨rfl, rfl, rfl, hI⟩
    | some t =>
      obtain ⟨f1, f2, _⟩ := template_clone_deep_frame c t
      exact ⟨f1, f2, rfl, port_invariant_template_clone h0 n0 c t hI⟩
  obtain ⟨p1, p2, p3, p4⟩ := hstep
  have hloop := clone_ports_loop_ports h0 n0 g.gate_ports
    (clone_template_step g g.clone_shallow c).1 (clone_template_step g g.clone_shallow c).2
    p4 hlt hu (by rw [p3]; intro x hx; cases hx)
  obtain ⟨r1, r2, r3, r4, r5⟩ := hloop
  unfold Gate.clone_deep Gate.clone_deep_into
  refine ⟨r1, ?_, ?_, ?_, r5⟩
  · intro d a hda
    apply r2
    rw [p2]; exact hda
  · rw [r3, p3]; simp
  · intro x
    rw [r4, p3]
    simp

theorem clone_deep_gates_templates (h0 : Heap) (n0 : Nat) :
    ∀ (gs : List Gate) (c : CloneContext),
      TemplateCloneInvariant h0 n0 c →
      (∀ g ∈ gs, ∀ T, g.gate_template = some T → T < n0) →
      TemplateCloneInvariant h0 n0 (clone_deep_gates c gs).1 ∧
        (∀ u a, oldnew_find c.oldnew_templates u = some a →
          oldnew_find (clone_deep_gates c gs).1.oldnew_templates u = some a) ∧
        (clone_deep_gates c gs).2.map (fun g => g.gate_template)
          = gs.map (fun g =>
              g.gate_template.bind (oldnew_find (clone_deep_gates c gs).1.oldnew_templates)) ∧
        (∀ g ∈ gs, ∀ T, g.gate_template = some T →
          ∃ a, oldnew_find (clone_deep_gates c gs).1.oldnew_templates T = some a) := by
  intro gs
  induction gs with
  | nil =>
    intro c hI _
    refine ⟨hI, fun _ _ hd => hd, rfl, ?_⟩
    intro g hg; cases hg
  | cons g gs ih =>
    intro c hI hT
    obtain ⟨g1, g2, g3, g4, _, _, _⟩ := gate_clone_deep_templates h0 n0 c g hI
      (hT g (List.mem_cons_self _ _))
    obtain ⟨i1, i2, i3, i4⟩ := ih (g.clone_deep c).1 g1
      (fun g' hg' => hT g' (List.mem_cons_of_mem _ hg'))
    simp only [clone_deep_gates]
    refine ⟨i1, fun u a hua => i2 u a (g2 u a hua), ?_, ?_⟩
    · simp only [List.map_cons, i3]
      congr 1
      cases hg : g.gate_template with
      | none => rw [g4 hg]; rfl
      | some T =>
        obtain ⟨e1, a, e2⟩ := g3 T hg
        rw [e1, e2]
        exact (i2 T a e2).symm
    · intro g' hg' T hgT
      rcases List.mem_cons.mp hg' with hEq | hmem
      · subst hEq
        obtain ⟨_, a, e2⟩ := g3 T hgT
        exact ⟨a, i2 T a e2⟩
      · exact i4 g' hmem T hgT

theorem clone_deep_gates_length :
    ∀ (gs : List Gate) (c : CloneContext), (clone_deep_gates c gs).2.length = gs.length := by
  intro gs
  induction gs with
  | nil => intro c; rfl
  | cons g gs ih => intro c; simp [clone_deep_gates, ih]

theorem countP_linked_clones (m : List (Nat × Nat)) (gs clones : List Gate) (T a : Nat)
    (hinj : ∀ t1 t2 b, oldnew_find m t1 = some b → oldnew_find m t2 = some b → t1 = t2)
    (hmap : clones.map (fun g => g.gate_template)
      = gs.map (fun g => g.gate_template.bind (oldnew_find m)))
    (hT : oldnew_find m T = some a) :
    clones.countP (fun g => g.gate_template == some a)
      = gs.countP (fun g => g.gate_template == some T) := by
  have h1 : clones.countP (fun g => g.gate_template == some a)
      = (clones.map (fun g => g.gate_template)).countP (fun o => o == some a) := by
    rw [List.countP_map]; rfl
  rw [h1, hmap, List.countP_map]
  apply List.countP_congr
  intro g _
  simp only [Function.comp, beq_iff_eq]
  cases hg : g.gate_template with
  | none => simp
  | some U =>
    simp only [Option.bind_some, Option.some.injEq]
    constructor
    · intro hU; exact hinj U T a hU hT
    · intro hU; rw [hU]; exact hT

theorem clone_deep_without_ports (c : CloneContext) (g : Gate) (T : Nat)
    (hp : g.gate_ports = []) (hT : g.gate_template = some T)
    (hf : oldnew_find c.oldnew_templates T = none) :
    (g.clone_deep c).2.gate_template = some c.next ∧
      (g.clone_deep c).1.heap.templates c.next = c.heap.templates T := by
  unfold Gate.clone_deep Gate.clone_deep_into
  rw [hp]
  simp only [clone_ports_loop, clone_template_step, hT, template_clone_deep_new c T hf]
  exact ⟨rfl, by simp [Heap.set_template]⟩

/-- C15, as stated, fails: in the world where the gates A and B are both
linked to the template at address 0, whose reference count is 2, the gate A
alone is deep-cloned through a new identity map.  The clone is linked to the
cloned template at address 100, whose reference count is 2, while one cloned
gate is linked to it. -/
theorem deep_clone_of_one_of_two_gates :
    example_world_shared.reference_counter 0 = 2 ∧
      example_world_shared.linked_gates 0 = 2 ∧
      (clone_deep_gates (CloneContext.start example_world_shared.heap 100)
          (example_world_shared.gates.take 1)).2.map (fun g => g.gate_template)
        = [some 100] ∧
      ((clone_deep_gates (CloneContext.start example_world_shared.heap 100)
          (example_world_shared.gates.take 1)).1.heap.templates 100).reference_counter = 2 ∧
      (clone_deep_gates (CloneContext.start example_world_shared.heap 100)
          (example_world_shared.gates.take 1)).2.countP
            (fun g => g.gate_template == some 100) = 1 := by
  have hcount : example_world_shared.reference_counter 0 = 2 := by
    simp [example_world_shared, World.run, World.call, World.reference_counter, example_world,
      set_gate_template_heap, set_gate_template_link, heap_after_decrement,
      Heap.set_template, example_gate, Gate.construct, example_heap, Heap.uniform,
      GateTemplate.increment_reference_counter]
  have hlinked : example_world_shared.linked_gates 0 = 2 := by
    simp [example_world_shared, World.run, World.call, World.linked_gates, example_world,
      set_gate_template_link]
  have htake : example_world_shared.gates.take 1
      = [(example_gate.set_gate_template example_heap 0).2] := by
    simp [example_world_shared, World.run, World.call, example_world]
  obtain ⟨c1, c2⟩ := clone_deep_without_ports
    (CloneContext.start example_world_shared.heap 100)
    (example_gate.set_gate_template example_heap 0).2 0
    (by rw [(set_gate_template_frame example_heap example_gate 0).1]; rfl)
    (set_gate_template_link example_heap example_gate 0) rfl
  have hlink : (clone_deep_gates (CloneContext.start example_world_shared.heap 100)
      (example_world_shared.gates.take 1)).2.map (fun g => g.gate_template) = [some 100] := by
    rw [htake]
    simp only [clone_deep_gates, List.map_cons, List.map_nil, c1]
    rfl
  refine ⟨hcount, hlinked, hlink, ?_, ?_⟩
  · rw [htake]
    simp only [clone_deep_gates]
    have := c2
    simp only [CloneContext.start] at this
    simp only [CloneContext.start]
    rw [this]
    exact hcount
  · have h1 : (clone_deep_gates (CloneContext.start example_world_shared.heap 100)
        (example_world_shared.gates.take 1)).2.countP (fun g => g.gate_template == some 100)
        = ((clone_deep_gates (CloneContext.start example_world_shared.heap 100)
          (example_world_shared.gates.take 1)).2.map (fun g => g.gate_template)).countP
            (fun o => o == some 100) := by
      rw [List.countP_map]; rfl
    rw [h1, hlink]
    rfl

/-- C15, amended: `Gate::clone_deep_into` assigns the cloned template to the
cloned gate and changes no reference count; a cloned template carries a copy
of the original's count.  After deep-cloning a list of gates through one new
identity map, each gate linked to a template has a clone linked to the clone
of that template, each cloned template's reference count equals the count of
the original template, the number of cloned gates linked to it equals the
number of gates of the list linked to the original (so count and number of
linked clones agree exactly when the original's count is the number of gates
of the list linked to it, as for a single gate that is the only one linked to
a template with count 1), and the originals are unchanged. -/
theorem clone_deep_copies_reference_count (h : Heap) (next : Nat) (gs : List Gate)
    (hT : ∀ g ∈ gs, ∀ T, g.gate_template = some T → T < next) :
    (clone_deep_gates (CloneContext.start h next) gs).2.length = gs.length ∧
      (∀ U, U < next →
        (clone_deep_gates (CloneContext.start h next) gs).1.heap.templates U
          = h.templates U) ∧
      (clone_deep_gates (CloneContext.start h next) gs).2.map (fun g => g.gate_template)
        = gs.map (fun g => g.gate_template.bind
            (oldnew_find (clone_deep_gates (CloneContext.start h next) gs).1.oldnew_templates)) ∧
      (∀ g ∈ gs, ∀ T, g.gate_template = some T →
        ∃ a, oldnew_find (clone_deep_gates (CloneContext.start h next) gs).1.oldnew_templates T
          = some a) ∧
      (∀ T a,
        oldnew_find (clone_deep_gates (CloneContext.start h next) gs).1.oldnew_templates T
          = some a →
        next ≤ a ∧
          ((clone_deep_gates (CloneContext.start h next) gs).1.heap.templates a).reference_counter
            = (h.templates T).reference_counter ∧
          (clone_deep_gates (CloneContext.start h next) gs).2.countP
              (fun g => g.gate_template == some a)
            = gs.countP (fun g => g.gate_template == some T)) := by
  obtain ⟨i1, _, i3, i4⟩ := clone_deep_gates_templates h next gs (CloneContext.start h next)
    (template_invariant_start h next) hT
  refine ⟨clone_deep_gates_length gs _, i1.templates_below, i3, i4, ?_⟩
  intro T a hTa
  obtain ⟨m1, _, m3⟩ := i1.templates_map T a hTa
  refine ⟨m1, by rw [m3], ?_⟩
  exact countP_linked_clones _ gs _ T a i1.templates_injective i3 hTa

/-- C15, amended, at the example gate linked to the template at address 0,
the only gate linked to it, with count 1: the deep clone through a new
identity map is linked to a cloned template whose count is 1, and the count
of the original is still 1. -/
theorem clone_deep_copies_reference_count_witness :
    ∃ a, oldnew_find (clone_deep_gates (CloneContext.start example_linked.1 100)
          [example_linked.2]).1.oldnew_templates 0 = some a ∧
      ((clone_deep_gates (CloneContext.start example_linked.1 100)
          [example_linked.2]).1.heap.templates a).reference_counter = 1 ∧
      ((clone_deep_gates (CloneContext.start example_linked.1 100)
          [example_linked.2]).1.heap.templates 0).reference_counter = 1 := by
  have hl : example_linked.2.gate_template = some 0 :=
    set_gate_template_link example_heap example_gate 0
  have hc : (example_linked.1.templates 0).reference_counter = 1 := by
    simp [example_linked, set_gate_template_heap, heap_after_decrement, Heap.set_template,
      example_gate, Gate.construct, example_heap, Heap.uniform,
      GateTemplate.increment_reference_counter]
  have hT : ∀ g ∈ [example_linked.2], ∀ T, g.gate_template = some T → T < 100 := by
    intro g hg T hgT
    rw [List.mem_singleton] at hg
    subst hg
    rw [hl] at hgT
    cases hgT
    decide
  have hspec := clone_deep_copies_reference_count example_linked.1 100 [example_linked.2] hT
  obtain ⟨a, ha⟩ := hspec.2.2.2.1 example_linked.2 (List.mem_singleton.mpr rfl) 0 hl
  refine ⟨a, ha, ?_, ?_⟩
  · rw [(hspec.2.2.2.2 0 a ha).2.1]; exact hc
  · rw [hspec.2.1 0 (by decide)]; exact hc

/-- C16: deep-cloning two gates that are linked to the same template, through
one new identity map whose clones are created at unused addresses, yields
two clones linked to one and the same cloned template, which is not the
original; each cloned gate has the original's bounding box and orientation,
as many ports as the original, and its ports are exactly the images of the
original's ports under the identity map, every original port having one. -/
theorem deep_clone_preserves_sharing (h : Heap) (next : Nat) (g1 g2 : Gate) (T : Nat)
    (h1 : g1.gate_template = some T) (h2 : g2.gate_template = some T) (hT : T < next)
    (hp1 : ∀ d ∈ g1.gate_ports, d < next) (hp2 : ∀ d ∈ g2.gate_ports, d < next)
    (hu1 : port_set_unique h.ports g1.gate_ports)
    (hu2 : port_set_unique h.ports g2.gate_ports) :
    ∃ a c1 c2,
      (clone_deep_gates (CloneContext.start h next) [g1, g2]).2 = [c1, c2] ∧
      oldnew_find (clone_deep_gates (CloneContext.start h next) [g1, g2]).1.oldnew_templates T
        = some a ∧
      c1.gate_template = some a ∧ c2.gate_template = some a ∧ a ≠ T ∧
      c1.get_bounding_box = g1.get_bounding_box ∧ c1.orientation = g1.orientation ∧
      c2.get_bounding_box = g2.get_bounding_box ∧ c2.orientation = g2.orientation ∧
      c1.gate_ports.length = g1.gate_ports.length ∧
      c2.gate_ports.length = g2.gate_ports.length ∧
      (∀ x, x ∈ c1.gate_ports ↔ ∃ d ∈ g1.gate_ports,
        oldnew_find (clone_deep_gates (CloneContext.start h next) [g1, g2]).1.oldnew_ports d
          = some x) ∧
      (∀ x, x ∈ c2.gate_ports ↔ ∃ d ∈ g2.gate_ports,
        oldnew_find (clone_deep_gates (CloneContext.start h next) [g1, g2]).1.oldnew_ports d
          = some x) ∧
      (∀ d ∈ g1.gate_ports, ∃ x ∈ c1.gate_ports,
        oldnew_find (clone_deep_gates (CloneContext.start h next) [g1, g2]).1.oldnew_ports d
          = some x) ∧
      (∀ d ∈ g2.gate_ports, ∃ x ∈ c2.gate_ports,
        oldnew_find (clone_deep_gates (CloneContext.start h next) [g1, g2]).1.oldnew_ports d
          = some x) := by
  -- the first gate
  obtain ⟨t1, t2, t3, _, t5, t6, _⟩ := gate_clone_deep_templates h next
    (CloneContext.start h next) g1 (template_invariant_start h next)
    (fun U hU => by rw [h1] at hU; cases hU; exact hT)
  obtain ⟨q1, q2, q3, q4, q5⟩ := gate_clone_deep_ports h next
    (CloneContext.start h next) g1 (port_invariant_start h next) hp1 hu1
  -- the second gate
  obtain ⟨u1, u2, u3, _, u5, u6, _⟩ := gate_clone_deep_templates h next
    (g1.clone_deep (CloneContext.start h next)).1 g2 t1
    (fun U hU => by rw [h2] at hU; cases hU; exact hT)
  obtain ⟨r1, r2, r3, r4, r5⟩ := gate_clone_deep_ports h next
    (g1.clone_deep (CloneContext.start h next)).1 g2 q1 hp2 hu2
  obtain ⟨e1, a, e2⟩ := t3 T h1
  obtain ⟨e3, b, e4⟩ := u3 T h2
  have hab : b = a := by
    have := u2 T a e2
    rw [this] at e4
    cases e4; rfl
  subst hab
  have hfinal : (clone_deep_gates (CloneContext.start h next) [g1, g2]).1
      = (g2.clone_deep (g1.clone_deep (CloneContext.start h next)).1).1 := rfl
  have hclones : (clone_deep_gates (CloneContext.start h next) [g1, g2]).2
      = [(g1.clone_deep (CloneContext.start h next)).2,
          (g2.clone_deep (g1.clone_deep (CloneContext.start h next)).1).2] := rfl
  rw [hfinal]
  refine ⟨b, _, _, hclones, e4, by rw [e1, e2], by rw [e3, e4], ?_, t6, t5, u6, u5, q3, r3,
    ?_, r4, ?_, ?_⟩
  · intro hEq
    have := (u1.templates_map T b e4).1
    rw [hEq] at this
    exact absurd hT (Nat.not_lt.mpr this)
  · intro x
    rw [q4]
    constructor
    · rintro ⟨d, hd, hf⟩
      exact ⟨d, hd, r2 d x hf⟩
    · rintro ⟨d, hd, hf⟩
      obtain ⟨y, hy⟩ := q5 d hd
      have := r2 d y hy
      rw [this] at hf
      cases hf
      exact ⟨d, hd, hy⟩
  · intro d hd
    obtain ⟨y, hy⟩ := q5 d hd
    exact ⟨y, (q4 y).mpr ⟨d, hd, hy⟩, r2 d y hy⟩
  · intro d hd
    obtain ⟨y, hy⟩ := r5 d hd
    exact ⟨y, (r4 y).mpr ⟨d, hd, hy⟩, hy⟩

/-- C16 at two gates linked to the template at address 0, with the ports 0, 1
and 2, 3, over the heap with pairwise different object-ids, cloned from the
address 100 on. -/
theorem deep_clone_preserves_sharing_witness :
    ∃ a c1 c2,
      (clone_deep_gates (CloneContext.start heap_distinct_ids 100)
        [example_gate_linked_two_ports, example_gate_linked_other_ports]).2 = [c1, c2] ∧
      c1.gate_template = some a ∧ c2.gate_template = some a ∧ a ≠ 0 ∧
      c1.gate_ports.length = 2 ∧ c2.gate_ports.length = 2 := by
  obtain ⟨a, c1, c2, w1, _, w3, w4, w5, _, _, _, _, w10, w11, _⟩ :=
    deep_clone_preserves_sharing heap_distinct_ids 100
      example_gate_linked_two_ports example_gate_linked_other_ports 0 rfl rfl (by decide)
      (by decide) (by decide)
      (by simp [port_set_unique, example_gate_linked_two_ports, heap_distinct_ids])
      (by simp [port_set_unique, example_gate_linked_other_ports, heap_distinct_ids])
  exact ⟨a, c1, c2, w1, w3, w4, w5, w10, w11⟩

/-! ## The cached type-id under all operations -/

end degate
